import Mathlib

/-!
Crush: OAuth credential manager and authenticating transport.

A shallow embedding of `internal/auth/storage.go`, `internal/auth/oauth.go` and
`internal/llm/provider/claudesub_transport.go`.

Stateful Go code is written in explicit state-passing style.  `World` is the
part of the outside world the code can change or observe having changed (the
auth document on disk and the logs of clock reads, document writes, token
endpoint calls and upstream sends).  `Env` is the behaviour of the outside
world that the code cannot influence (the clock, the token endpoint, the
upstream API, the outcome of a disk write, the JSON decoder for token
replies).  Every function is total and computable.

Go `int64` values are integers, and every arithmetic operation the source
performs on them is followed by `wrap64`.  Go `error` values are `GoError`;
a `nil` error is `none` / `Except.ok`.  The mutex of `AuthManager` and the
`slog` calls have no effect on the sequential behaviour and are left out.
-/

namespace Crush

/-! ## Go errors -/

/-- Go error values.  `errorf m` is an error with message `m` and no cause
(`fmt.Errorf` without `%w`, or an error coming from outside the program);
`wrap m c` is `fmt.Errorf(m + ": %w", c)`. -/
inductive GoError where
  | errorf (msg : String)
  | wrap (msg : String) (cause : GoError)
deriving DecidableEq, Repr

namespace GoError

/-- The text of `err.Error()`. -/
def Error : GoError → String
  | errorf m => m
  | wrap m c => m ++ ": " ++ Error c

/-- The chain walked by `errors.Is` / `errors.Unwrap`: `Wraps e c` holds when
`c` is `e` itself or a cause reachable from `e`. -/
def Wraps : GoError → GoError → Bool
  | errorf m, c => decide (errorf m = c)
  | wrap m e, c => decide (wrap m e = c) || Wraps e c

end GoError

deriving instance DecidableEq for Except

/-! ## 64-bit integers and time -/

/-- Two's-complement wrap-around of a Go `int64` result. -/
def wrap64 (x : Int) : Int := (x + 2 ^ 63) % 2 ^ 64 - 2 ^ 63

/-- The values of Go's `int64`. -/
def isInt64 (x : Int) : Prop := -2 ^ 63 ≤ x ∧ x < 2 ^ 63

instance (x : Int) : Decidable (isInt64 x) := by unfold isInt64; infer_instance

/-- A reading of `time.Now()` is given as Unix nanoseconds.  `Time.UnixMilli`
is the floor of the nanosecond count divided by a million (exact on every
instant for which Go defines it). -/
def UnixMilli (t : Int) : Int := t / 1000000

/-- The expression `time.Duration(n) * time.Second`: an `int64` count of
nanoseconds, computed with wrap-around. -/
def durationSeconds (n : Int) : Int := wrap64 (n * 1000000000)

/-- The method `Time.Add`, on readings given as Unix nanoseconds. -/
def timeAdd (t d : Int) : Int := t + d

/-! ## Data model (`oauth.go`, `storage.go`) -/

def ClientID : String := "9d1c250a-e61b-44d9-88ed-5944d1962f5e"
def RedirectURI : String := "https://console.anthropic.com/oauth/code/callback"
def Scope : String := "org:create_api_key user:profile user:inference"
def AuthURL : String := "https://claude.ai/oauth/authorize"
def TokenURL : String := "https://console.anthropic.com/v1/oauth/token"
def BetaHeaders : String :=
  "oauth-2025-04-20,claude-code-20250219,interleaved-thinking-2025-05-14,fine-grained-tool-streaming-2025-05-14"

/-- The wire shape of a token endpoint reply (`oauth.go`, `TokenResponse`). -/
structure TokenResponse where
  AccessToken : String
  RefreshToken : String
  ExpiresIn : Int
  TokenType : String
  Scope : String
deriving DecidableEq, Repr

/-- The stored credential (`storage.go`, `OAuthCredentials`).  The Go field
`Type` is spelled `Typ` here, `Type` being reserved. -/
structure OAuthCredentials where
  Typ : String
  Access : String
  Refresh : String
  Expires : Int
  Scope : String
deriving DecidableEq, Repr

/-- The on-disk document (`storage.go`, `AuthData`): one optional credential. -/
structure AuthData where
  ClaudeSub : Option OAuthCredentials
deriving DecidableEq, Repr

/-- What `os.ReadFile` followed by `json.Unmarshal` finds at the auth file path. -/
inductive Disk where
  /-- No file: `os.ReadFile` fails with an `IsNotExist` error. -/
  | missing
  /-- The file cannot be read for another reason. -/
  | unreadable (err : GoError)
  /-- The file is read but `json.Unmarshal` rejects its contents. -/
  | corrupt (err : GoError)
  /-- The file holds the JSON encoding of `d`. -/
  | doc (d : AuthData)
deriving DecidableEq, Repr

/-! ## HTTP requests and headers -/

/-- Go's `http.Header`, a `map[string][]string`, as an association list:
a lookup takes the first entry with the key, a deletion removes every one. -/
abbrev Header := List (String × List String)

/-- An outbound request, as far as the transport touches it.  `Body` is what
the body stream yields when it is read. -/
structure Request where
  Method : String
  URL : String
  Header : Header
  Body : String
deriving DecidableEq, Repr

/-- An upstream response. -/
structure Response where
  StatusCode : Int
  Header : Header
  Body : String
deriving DecidableEq, Repr

/-- The JSON object posted to the token endpoint, as its fields. -/
abbrev TokenRequest := List (String × String)

/-- What one call of the token endpoint produces. -/
inductive TokenReply where
  /-- The request cannot be completed: `httpClient.Do` returns an error. -/
  | doError (err : GoError)
  /-- A response arrives but `io.ReadAll` on its body fails. -/
  | readError (err : GoError)
  /-- A response with this status code and body. -/
  | reply (status : Int) (body : String)
deriving DecidableEq, Repr

/-- What one attempt of `SaveAuthData` meets on disk. -/
inductive SaveOutcome where
  /-- The directory exists or is created and the file is written. -/
  | written
  /-- The call `os.MkdirAll` fails; the file is not touched. -/
  | mkdirFails (err : GoError)
  /-- The call `os.WriteFile` fails, leaving `after old` on disk. -/
  | writeFails (err : GoError) (after : Disk → Disk)

/-- The outside world's behaviour. -/
structure Env where
  /-- The `k`-th reading of `time.Now()`, in Unix nanoseconds. -/
  now : Nat → Int
  /-- The outcome of the `k`-th document write. -/
  save : Nat → SaveOutcome
  /-- The token endpoint's answer to the `k`-th call. -/
  token : Nat → TokenRequest → TokenReply
  /-- The call `json.Unmarshal(body, &tokenResp)`. -/
  unmarshalToken : String → Except GoError TokenResponse
  /-- The underlying transport's answer to the `k`-th send. -/
  base : Nat → Request → Except GoError Response
  /-- What the body stream of the request handed over at the `k`-th send still
  yields once that send has returned: the transport reads from the stream and
  closes it. -/
  bodyLeft : Nat → Request → String

/-- The state the code reads and changes. -/
structure World where
  disk : Disk
  /-- Number of `time.Now()` calls made so far. -/
  clockReads : Nat
  /-- Number of document writes attempted so far. -/
  saves : Nat
  /-- The requests posted to the token endpoint so far, oldest first. -/
  tokenCalls : List TokenRequest
  /-- The requests handed to the underlying transport so far, oldest first. -/
  sends : List Request
deriving DecidableEq, Repr

/-! ## `storage.go` -/

/-- `AuthManager.LoadAuthData` (storage.go:51-71). -/
def LoadAuthData (w : World) : Except GoError AuthData :=
  match w.disk with
  | .missing => .ok { ClaudeSub := none }
  | .unreadable err => .error (.wrap "failed to read auth file" err)
  | .corrupt err => .error (.wrap "failed to parse auth data" err)
  | .doc d => .ok d

/-- `AuthManager.SaveAuthData` (storage.go:74-97).  `json.MarshalIndent`
cannot fail on an `AuthData`. -/
def SaveAuthData (env : Env) (w : World) (authData : AuthData) : World × Option GoError :=
  match env.save w.saves with
  | .mkdirFails err =>
    ({ w with saves := w.saves + 1 }, some (.wrap "failed to create data directory" err))
  | .writeFails err after =>
    ({ w with saves := w.saves + 1, disk := after w.disk },
      some (.wrap "failed to write auth file" err))
  | .written => ({ w with saves := w.saves + 1, disk := .doc authData }, none)

/-- `AuthManager.StoreClaudeSubCredentials` (storage.go:99-122). -/
def StoreClaudeSubCredentials (env : Env) (w : World) (tokenResp : TokenResponse) :
    World × Option GoError :=
  match LoadAuthData w with
  | .error err => (w, some (.wrap "failed to load auth data" err))
  | .ok authData =>
    let expiresAt :=
      UnixMilli (timeAdd (env.now w.clockReads) (durationSeconds tokenResp.ExpiresIn))
    let w1 := { w with clockReads := w.clockReads + 1 }
    let authData1 : AuthData :=
      { authData with
        ClaudeSub := some
          { Typ := "oauth"
            Access := tokenResp.AccessToken
            Refresh := tokenResp.RefreshToken
            Expires := expiresAt
            Scope := tokenResp.Scope } }
    match SaveAuthData env w1 authData1 with
    | (w2, some err) => (w2, some (.wrap "failed to save claudesub credentials" err))
    | (w2, none) => (w2, none)

/-- `AuthManager.GetClaudeSubCredentials` (storage.go:124-135). -/
def GetClaudeSubCredentials (w : World) : Except GoError OAuthCredentials :=
  match LoadAuthData w with
  | .error err => .error (.wrap "failed to load auth data" err)
  | .ok authData =>
    match authData.ClaudeSub with
    | none => .error (.errorf "no claudesub credentials found")
    | some creds => .ok creds

/-- `AuthManager.IsClaudeSubTokenValid` (storage.go:137-148). -/
def IsClaudeSubTokenValid (env : Env) (w : World) : World × Except GoError Bool :=
  match GetClaudeSubCredentials w with
  | .error err => (w, .error err)
  | .ok creds =>
    let now := UnixMilli (env.now w.clockReads)
    let bufferMs : Int := 5 * 60 * 1000
    ({ w with clockReads := w.clockReads + 1 },
      .ok (decide (now < wrap64 (creds.Expires - bufferMs))))

/-! ## `oauth.go` -/

/-- `OAuthFlow.RefreshToken` (oauth.go:151-191).  `json.Marshal` of a map of
strings and `http.NewRequestWithContext` with the constant method and URL
cannot fail. -/
def RefreshToken (env : Env) (w : World) (refreshToken : String) :
    World × Except GoError TokenResponse :=
  let requestData : TokenRequest :=
    [("grant_type", "refresh_token"), ("client_id", ClientID), ("refresh_token", refreshToken)]
  let w1 := { w with tokenCalls := w.tokenCalls ++ [requestData] }
  match env.token w.tokenCalls.length requestData with
  | .doError err => (w1, .error (.wrap "token refresh request failed" err))
  | .readError err => (w1, .error (.wrap "failed to read refresh response" err))
  | .reply status body =>
    if status ≠ 200 then
      (w1, .error (.errorf ("token refresh failed with status " ++ toString status ++ ": " ++ body)))
    else
      match env.unmarshalToken body with
      | .error err => (w1, .error (.wrap "failed to parse refresh response" err))
      | .ok tokenResp => (w1, .ok tokenResp)

/-! ## `storage.go`, continued -/

/-- `AuthManager.RefreshClaudeSubToken` (storage.go:150-174). -/
def RefreshClaudeSubToken (env : Env) (w : World) : World × Option GoError :=
  match GetClaudeSubCredentials w with
  | .error err => (w, some (.wrap "no claudesub credentials to refresh" err))
  | .ok creds =>
    if creds.Refresh = "" then
      (w, some (.errorf "no refresh token available"))
    else
      match RefreshToken env w creds.Refresh with
      | (w1, .error err) => (w1, some (.wrap "failed to refresh token" err))
      | (w1, .ok tokenResp) =>
        match StoreClaudeSubCredentials env w1 tokenResp with
        | (w2, some err) => (w2, some (.wrap "failed to store refreshed credentials" err))
        | (w2, none) => (w2, none)

/-- `AuthManager.ClearClaudeSubCredentials` (storage.go:176-190). -/
def ClearClaudeSubCredentials (env : Env) (w : World) : World × Option GoError :=
  match LoadAuthData w with
  | .error err => (w, some (.wrap "failed to load auth data" err))
  | .ok authData =>
    match SaveAuthData env w { authData with ClaudeSub := none } with
    | (w1, some err) =>
      (w1, some (.wrap "failed to save auth data after clearing credentials" err))
    | (w1, none) => (w1, none)

/-- `AuthManager.GetValidAccessToken` (storage.go:192-212). -/
def GetValidAccessToken (env : Env) (w : World) : World × Except GoError String :=
  match IsClaudeSubTokenValid env w with
  | (w1, .error err) => (w1, .error err)
  | (w1, .ok valid) =>
    let afterRefresh : World × Option GoError :=
      if !valid then RefreshClaudeSubToken env w1 else (w1, none)
    match afterRefresh with
    | (w2, some err) => (w2, .error (.wrap "failed to refresh expired token" err))
    | (w2, none) =>
      match GetClaudeSubCredentials w2 with
      | .error err => (w2, .error err)
      | .ok creds => (w2, .ok creds.Access)

/-- `AuthManager.HasClaudeSubAuth` (storage.go:214-217). -/
def HasClaudeSubAuth (w : World) : Bool :=
  match GetClaudeSubCredentials w with
  | .error _ => false
  | .ok _ => true

/-! ## `net/http` headers -/

/-- Go's `validHeaderFieldByte`: the RFC 7230 token characters. -/
def validHeaderFieldByte (c : Char) : Bool :=
  let n := c.toNat
  (48 ≤ n && n ≤ 57) || (65 ≤ n && n ≤ 90) || (97 ≤ n && n ≤ 122) ||
    n == 33 || n == 35 || n == 36 || n == 37 || n == 38 || n == 39 || n == 42 || n == 43 ||
    n == 45 || n == 46 || n == 94 || n == 95 || n == 96 || n == 124 || n == 126

/-- The case rewriting loop of Go's `canonicalMIMEHeaderKey`: upper case at the
start and after each dash, lower case elsewhere. -/
def canonicalCase : Bool → List Char → List Char
  | _, [] => []
  | upper, c :: cs =>
    let c1 :=
      if upper && 97 ≤ c.toNat && c.toNat ≤ 122 then Char.ofNat (c.toNat - 32)
      else if !upper && 65 ≤ c.toNat && c.toNat ≤ 90 then Char.ofNat (c.toNat + 32)
      else c
    c1 :: canonicalCase (c1 == '-') cs

/-- Go's `textproto.CanonicalMIMEHeaderKey`: a key with a byte that is not a
token character is returned as it is, any other key is put in canonical case. -/
def CanonicalMIMEHeaderKey (s : String) : String :=
  if s.data.all validHeaderFieldByte then String.mk (canonicalCase true s.data) else s

/-- `Header.Del`. -/
def Header.Del (h : Header) (key : String) : Header :=
  h.filter (fun kv => kv.1 != CanonicalMIMEHeaderKey key)

/-- The map lookup `h[key]` on the raw key (`nil` is the empty list). -/
def Header.index (h : Header) (key : String) : List String :=
  (h.lookup key).getD []

/-- `Header.Set`. -/
def Header.Set (h : Header) (key value : String) : Header :=
  (CanonicalMIMEHeaderKey key, [value]) ::
    h.filter (fun kv => kv.1 != CanonicalMIMEHeaderKey key)

/-- `Header.Add`. -/
def Header.Add (h : Header) (key value : String) : Header :=
  (CanonicalMIMEHeaderKey key, Header.index h (CanonicalMIMEHeaderKey key) ++ [value]) ::
    h.filter (fun kv => kv.1 != CanonicalMIMEHeaderKey key)

/-- `Header.Values`. -/
def Header.Values (h : Header) (key : String) : List String :=
  Header.index h (CanonicalMIMEHeaderKey key)

/-- Whether the map has an entry under the raw key. -/
def Header.has (h : Header) (key : String) : Bool :=
  h.any (fun kv => kv.1 == key)

/-! ## `claudesub_transport.go` -/

/-- The header rewriting of `claudeSubTransport.modifyRequestHeaders`
(claudesub_transport.go:75-91), once the access token is known. -/
def rewriteHeaders (h : Header) (accessToken : String) : Header :=
  let h := Header.Del h "x-api-key"
  let h := Header.Del h "X-Api-Key"
  let h := Header.Set h "Authorization" ("Bearer " ++ accessToken)
  let h := Header.Del h "Anthropic-Beta"
  let h := Header.Del h "anthropic-beta"
  let h := Header.Add h "anthropic-beta" BetaHeaders
  let h := Header.Del h "User-Agent"
  let h := Header.Del h "X-Stainless-Os"
  let h := Header.Del h "X-Stainless-Lang"
  let h := Header.Del h "X-Stainless-Retry-Count"
  let h := Header.Del h "X-Stainless-Arch"
  let h := Header.Del h "X-Stainless-Runtime"
  let h := Header.Del h "X-Stainless-Runtime-Version"
  let h := Header.Del h "X-Stainless-Package-Version"
  h

/-- `claudeSubTransport.modifyRequestHeaders` (claudesub_transport.go:68-94).
The Go method rewrites the request in place; here the rewritten request is
returned. -/
def modifyRequestHeaders (env : Env) (w : World) (req : Request) :
    World × Except GoError Request :=
  match GetValidAccessToken env w with
  | (w1, .error err) => (w1, .error (.wrap "failed to get valid access token" err))
  | (w1, .ok accessToken) => (w1, .ok { req with Header := rewriteHeaders req.Header accessToken })

/-- The call `t.base.RoundTrip(r)`: the request is logged and the underlying
transport answers. -/
def baseRoundTrip (env : Env) (w : World) (r : Request) : World × Except GoError Response :=
  ({ w with sends := w.sends ++ [r] }, env.base w.sends.length r)

/-- `claudeSubTransport.RoundTrip` (claudesub_transport.go:26-66).  `req.Clone`
copies the headers but shares the `Body` stream.  The first clone is `req`
itself; the clone made for the retry has the headers of `req` and the body
stream as the first send left it. -/
def RoundTrip (env : Env) (w : World) (req : Request) : World × Except GoError Response :=
  let clonedReq := req
  match modifyRequestHeaders env w clonedReq with
  | (w1, .error err) => (w1, .error (.wrap "failed to modify request headers" err))
  | (w1, .ok clonedReq1) =>
    match baseRoundTrip env w1 clonedReq1 with
    | (w2, .error err) => (w2, .error err)
    | (w2, .ok resp) =>
      if resp.StatusCode = 401 then
        match RefreshClaudeSubToken env w2 with
        | (w3, some refreshErr) =>
          (w3, .error (.wrap "authentication failed and token refresh failed" refreshErr))
        | (w3, none) =>
          let clonedReq2 := { req with Body := env.bodyLeft w1.sends.length clonedReq1 }
          match modifyRequestHeaders env w3 clonedReq2 with
          | (w4, .error err) =>
            (w4, .error (.wrap "failed to modify request headers after refresh" err))
          | (w4, .ok clonedReq3) =>
            match baseRoundTrip env w4 clonedReq3 with
            | (w5, .error err) => (w5, .error err)
            | (w5, .ok resp2) => (w5, .ok resp2)
      else
        (w2, .ok resp)

/-! ## `strings`, `net/url`, `encoding/base64`: the library functions the flow calls -/

/-- Go's `[]byte(s)`: the UTF-8 encoding of a string, as byte values. -/
def utf8Char (c : Char) : List Nat :=
  let n := c.toNat
  if n < 128 then [n]
  else if n < 2048 then [192 + n / 64, 128 + n % 64]
  else if n < 65536 then [224 + n / 4096, 128 + n / 64 % 64, 128 + n % 64]
  else [240 + n / 262144, 128 + n / 4096 % 64, 128 + n / 64 % 64, 128 + n % 64]

/-- The bytes of a Go string. -/
def utf8Bytes (s : String) : List Nat := s.data.flatMap utf8Char

/-- The pieces of a character list between occurrences of `sep`; there is
always at least one piece. -/
def splitChars (sep : Char) : List Char → List (List Char)
  | [] => [[]]
  | c :: cs =>
    if c = sep then [] :: splitChars sep cs
    else
      match splitChars sep cs with
      | [] => [[c]]
      | p :: ps => (c :: p) :: ps

/-- Go's `strings.Split(s, sep)` for a separator of one ASCII character. -/
def Split (s : String) (sep : Char) : List String :=
  (splitChars sep s.data).map String.mk

/-- Go's `shouldEscape(c, encodeQueryComponent)` in `net/url`: everything but
letters, digits and `-`, `_`, `.`, `~` is escaped. -/
def shouldEscape (c : Nat) : Bool :=
  !((97 ≤ c && c ≤ 122) || (65 ≤ c && c ≤ 90) || (48 ≤ c && c ≤ 57) ||
    c == 45 || c == 95 || c == 46 || c == 126)

/-- The digit table `upperhex` of `net/url`. -/
def upperhex (n : Nat) : Nat := if n < 10 then 48 + n else 55 + n

/-- One byte as `net/url`'s `escape` writes it in a query component: a space
becomes `+`, a byte to escape becomes `%XX`, any other byte stays. -/
def escapeByte (c : Nat) : List Nat :=
  if c = 32 then [43]
  else if shouldEscape c then [37, upperhex (c / 16), upperhex (c % 16)]
  else [c]

/-- Go's `url.QueryEscape`, from bytes to bytes (the result is ASCII). -/
def queryEscapeBytes (b : List Nat) : List Nat := b.flatMap escapeByte

/-- Go's `url.QueryEscape`. -/
def QueryEscape (s : String) : String :=
  String.mk ((queryEscapeBytes (utf8Bytes s)).map Char.ofNat)

/-- Go's `url.Values`, a `map[string][]string`, as an association list. -/
abbrev Values := List (String × List String)

/-- `Values.Set`. -/
def Values.Set (v : Values) (key value : String) : Values :=
  (key, [value]) :: v.filter (fun kv => kv.1 != key)

/-- The `key=value` pairs of one key in `Values.Encode`. -/
def encodeKey (key : String) (vs : List String) : List String :=
  vs.map (fun value => QueryEscape key ++ "=" ++ QueryEscape value)

/-- The order of byte strings: lexicographic, byte by byte. -/
def bytesLE : List Nat → List Nat → Bool
  | [], _ => true
  | _ :: _, [] => false
  | a :: as, b :: bs => a < b || (a == b && bytesLE as bs)

/-- The order in which `slices.Sort` puts Go strings. -/
def stringLE (a b : String) : Bool := bytesLE (utf8Bytes a) (utf8Bytes b)

/-- `Values.Encode`: the keys in sorted order, each value written as
`key=value` with both sides escaped, the pairs joined by `&`. -/
def Values.Encode (v : Values) : String :=
  let keys := ((v.map (fun kv => kv.1)).eraseDups).insertionSort (fun a b => stringLE a b = true)
  "&".intercalate (keys.flatMap (fun k => encodeKey k ((v.lookup k).getD [])))

/-- The alphabet of `base64.URLEncoding`. -/
def encodeURL : String := "ABCDEFGHIJKLMNOPQRSTUVWXYZabcdefghijklmnopqrstuvwxyz0123456789-_"

/-- The character for a 6-bit value. -/
def base64Char (n : Nat) : Char := encodeURL.data.getD (n % 64) 'A'

/-- `base64.URLEncoding.WithPadding(base64.NoPadding).EncodeToString`, as the
encoder computes it: three bytes make a 24-bit value and four characters, a
remainder of one or two bytes makes two or three characters. -/
def base64RawURL : List Nat → List Char
  | a :: b :: c :: rest =>
    let val := a * 65536 + b * 256 + c
    base64Char (val / 262144) :: base64Char (val / 4096) :: base64Char (val / 64) ::
      base64Char val :: base64RawURL rest
  | [a, b] =>
    let val := a * 65536 + b * 256
    [base64Char (val / 262144), base64Char (val / 4096), base64Char (val / 64)]
  | [a] =>
    let val := a * 65536
    [base64Char (val / 262144), base64Char (val / 4096)]
  | [] => []

/-! ## `pkce.go` -/

/-- The call `crypto/rand.Read(b)` and `crypto/sha256.Sum256`, which the
program takes from the standard library. -/
structure Crypto where
  /-- What the random source delivers: an error, or a stream of bytes. -/
  random : Except GoError (List Nat)
  /-- The SHA-256 digest of a byte string, as 32 byte values. -/
  Sum256 : List Nat → List Nat

/-- `PKCEChallenge` (pkce.go:10-14). -/
structure PKCEChallenge where
  Verifier : String
  Challenge : String
  Method : String
deriving DecidableEq, Repr

/-- The constant `charset` of `generateCodeVerifier` (pkce.go:35). -/
def charset : String := "ABCDEFGHIJKLMNOPQRSTUVWXYZabcdefghijklmnopqrstuvwxyz0123456789-._~"

/-- The call `rand.Read(b)` on a fresh buffer of `length` bytes: it fails, or
fills the whole buffer with bytes of the random source. -/
def randRead (c : Crypto) (length : Nat) : Except GoError (List Nat) :=
  match c.random with
  | .error err => .error err
  | .ok bytes => .ok ((List.range length).map (fun i => bytes.getD i 0 % 256))

/-- `generateCodeVerifier` (pkce.go:33-47). -/
def generateCodeVerifier (c : Crypto) (length : Nat) : Except GoError String :=
  match randRead c length with
  | .error err => .error err
  | .ok b =>
    .ok (String.mk (b.map (fun x => charset.data.getD (x % (charset.length % 256)) 'A')))

/-- `createCodeChallenge` (pkce.go:50-53). -/
def createCodeChallenge (c : Crypto) (verifier : String) : String :=
  let hash := c.Sum256 (utf8Bytes verifier)
  String.mk (base64RawURL hash)

/-- `GeneratePKCEChallenge` (pkce.go:16-30). -/
def GeneratePKCEChallenge (c : Crypto) : Except GoError PKCEChallenge :=
  match generateCodeVerifier c 64 with
  | .error err => .error (.wrap "failed to generate code verifier" err)
  | .ok verifier =>
    let challenge := createCodeChallenge c verifier
    .ok { Verifier := verifier, Challenge := challenge, Method := "S256" }

/-! ## `oauth.go`: the authorization flow -/

/-- `OAuthFlow` (oauth.go:25-28).  The HTTP client is the token endpoint of `Env`. -/
structure OAuthFlow where
  pkce : Option PKCEChallenge
deriving DecidableEq, Repr

/-- `NewOAuthFlow` (oauth.go:38-44). -/
def NewOAuthFlow : OAuthFlow := { pkce := none }

/-- `OAuthFlow.GenerateAuthURL` (oauth.go:46-65); the flow is returned with the
challenge stored in it. -/
def GenerateAuthURL (c : Crypto) (o : OAuthFlow) : OAuthFlow × Except GoError String :=
  match GeneratePKCEChallenge c with
  | .error err => (o, .error (.wrap "failed to generate PKCE challenge" err))
  | .ok pkce =>
    let o1 : OAuthFlow := { o with pkce := some pkce }
    let params : Values := []
    let params := Values.Set params "client_id" ClientID
    let params := Values.Set params "response_type" "code"
    let params := Values.Set params "redirect_uri" RedirectURI
    let params := Values.Set params "scope" Scope
    let params := Values.Set params "code_challenge" pkce.Challenge
    let params := Values.Set params "code_challenge_method" pkce.Method
    let params := Values.Set params "code" "true"
    let params := Values.Set params "state" pkce.Verifier
    let authURL := AuthURL ++ "?" ++ Values.Encode params
    (o1, .ok authURL)

/-- `OAuthFlow.ExchangeCodeForTokens` (oauth.go:88-149).  `json.Marshal` of a
map of strings and `http.NewRequestWithContext` with the constant method and
URL cannot fail. -/
def ExchangeCodeForTokens (env : Env) (w : World) (o : OAuthFlow) (codeWithState : String) :
    World × Except GoError TokenResponse :=
  match o.pkce with
  | none =>
    (w, .error (.errorf "PKCE challenge not initialized - call GenerateAuthURL first"))
  | some pkce =>
    let parts := Split codeWithState '#'
    if parts.length ≠ 2 then
      (w, .error (.errorf
        ("invalid code format - expected \x27code#state\x27, got: " ++ codeWithState)))
    else
      let authCode := parts.getD 0 ""
      let state := parts.getD 1 ""
      if state ≠ pkce.Verifier then
        (w, .error (.errorf "state mismatch - possible CSRF attack"))
      else
        let requestData : TokenRequest :=
          [("grant_type", "authorization_code"), ("client_id", ClientID), ("code", authCode),
            ("redirect_uri", RedirectURI), ("code_verifier", pkce.Verifier), ("state", state)]
        let w1 := { w with tokenCalls := w.tokenCalls ++ [requestData] }
        match env.token w.tokenCalls.length requestData with
        | .doError err => (w1, .error (.wrap "token exchange request failed" err))
        | .readError err => (w1, .error (.wrap "failed to read token response" err))
        | .reply status body =>
          if status ≠ 200 then
            (w1, .error (.errorf
              ("token exchange failed with status " ++ toString status ++ ": " ++ body)))
          else
            match env.unmarshalToken body with
            | .error err => (w1, .error (.wrap "failed to parse token response" err))
            | .ok tokenResp => (w1, .ok tokenResp)

/-! ## Names used in statements, and concrete scenarios -/

/-- An offline world: the clock always reads `nowNs`, writes succeed, and
neither the token endpoint nor the upstream API can be reached. -/
def offlineEnv (nowNs : Int) : Env where
  now := fun _ => nowNs
  save := fun _ => .written
  token := fun _ _ => .doError (.errorf "dial tcp: connection refused")
  unmarshalToken := fun _ => .error (.errorf "unexpected end of JSON input")
  base := fun _ _ => .error (.errorf "dial tcp: connection refused")
  bodyLeft := fun _ _ => ""

/-- A world whose auth document holds `creds` and in which nothing has happened yet. -/
def worldWith (creds : OAuthCredentials) : World where
  disk := .doc { ClaudeSub := some creds }
  clockReads := 0
  saves := 0
  tokenCalls := []
  sends := []

/-- A stored credential with the given expiry. -/
def credsExpiring (expires : Int) : OAuthCredentials where
  Typ := "oauth"
  Access := "access-0"
  Refresh := "refresh-0"
  Expires := expires
  Scope := "user:inference"

/-- The credential `StoreClaudeSubCredentials` builds from a token response
and the computed expiry (storage.go:108-114). -/
def storedCredentials (r : TokenResponse) (expiresAt : Int) : OAuthCredentials where
  Typ := "oauth"
  Access := r.AccessToken
  Refresh := r.RefreshToken
  Expires := expiresAt
  Scope := r.Scope

/-- The JSON object `RefreshToken` posts for a refresh token (oauth.go:152-156). -/
def refreshGrant (refreshToken : String) : TokenRequest :=
  [("grant_type", "refresh_token"), ("client_id", ClientID), ("refresh_token", refreshToken)]

/-- A token response granting `access-1` / `refresh-1` for `expiresIn` seconds. -/
def freshToken (expiresIn : Int) : TokenResponse where
  AccessToken := "access-1"
  RefreshToken := "refresh-1"
  ExpiresIn := expiresIn
  TokenType := "Bearer"
  Scope := "user:inference"

/-- A world in which the token endpoint grants every request with the token
response `r`, the `k`-th upstream send is answered with status `upstream k`,
the `k`-th clock reading is `clock k` and the `k`-th document write ends as
`save k`. -/
def grantingEnv (clock : Nat → Int) (r : TokenResponse) (upstream : Nat → Int)
    (save : Nat → SaveOutcome) : Env where
  now := clock
  save := save
  token := fun _ _ => .reply 200 "token-json"
  unmarshalToken := fun body =>
    if body = "token-json" then .ok r else .error (.errorf "invalid character")
  base := fun k _ => .ok { StatusCode := upstream k, Header := [], Body := "" }
  bodyLeft := fun _ _ => ""

/-- A clock starting at 1,700,000,000 s after the epoch and advancing one
second per reading. -/
def tickingClock (k : Nat) : Int := 1700000000000000000 + 1000000000 * k

/-- An upstream API answering 200 to every send. -/
def upstreamOk (_ : Nat) : Int := 200

/-- A disk on which every write succeeds. -/
def saveWritten (_ : Nat) : SaveOutcome := .written

/-- A disk whose directory cannot be created. -/
def saveDenied (_ : Nat) : SaveOutcome := .mkdirFails (.errorf "mkdir: permission denied")

/-- The expiry `StoreClaudeSubCredentials` computes for the token response `r`
when its `time.Now()` is the `k`-th clock reading (storage.go:106). -/
def refreshedExpiry (env : Env) (k : Nat) (r : TokenResponse) : Int :=
  UnixMilli (timeAdd (env.now k) (durationSeconds r.ExpiresIn))

/-- The request `modifyRequestHeaders` leaves behind for the access token `t`. -/
def stamped (req : Request) (t : String) : Request :=
  { req with Header := rewriteHeaders req.Header t }

/-- The clone `RoundTrip` makes of `req` for the retry, after the `k`-th send has
handed `stamped req t` to the transport: the headers of `req`, the body stream
as that send left it. -/
def retryClone (env : Env) (k : Nat) (req : Request) (t : String) : Request :=
  { req with Body := env.bodyLeft k (stamped req t) }

/-- An upstream API answering 401 to the first send and `second` from then on. -/
def upstream401Then (second : Int) (k : Nat) : Int := if k = 0 then 401 else second

/-- A request as the SDK hands it to the transport. -/
def apiRequest : Request where
  Method := "POST"
  URL := "https://api.anthropic.com/v1/messages"
  Header := [("X-Api-Key", ["sk-static"]), ("User-Agent", ["sdk/1.0"]),
    ("Content-Type", ["application/json"])]
  Body := "\x7b\x7d"

/-- A stored credential without a refresh token. -/
def credsWithoutRefresh (expires : Int) : OAuthCredentials where
  Typ := "oauth"
  Access := "access-0"
  Refresh := ""
  Expires := expires
  Scope := "user:inference"

/-- A token response that lives for a minute and carries no refresh token. -/
def lastToken : TokenResponse where
  AccessToken := "access-1"
  RefreshToken := ""
  ExpiresIn := 60
  TokenType := "Bearer"
  Scope := "user:inference"

/-- An upstream API answering 500 to every send. -/
def upstreamDown (_ : Nat) : Int := 500

/-- The header names `modifyRequestHeaders` strips for good
(claudesub_transport.go:76-77, 84-91). -/
def strippedKeys : List String :=
  ["X-Api-Key", "User-Agent", "X-Stainless-Os", "X-Stainless-Lang", "X-Stainless-Retry-Count",
    "X-Stainless-Arch", "X-Stainless-Runtime", "X-Stainless-Runtime-Version",
    "X-Stainless-Package-Version"]

/-- A flow holding a challenge with the given verifier. -/
def flowWith (verifier : String) : OAuthFlow where
  pkce := some { Verifier := verifier, Challenge := "challenge", Method := "S256" }

/-- A world with no auth file in which nothing has happened yet. -/
def freshWorld : World where
  disk := .missing
  clockReads := 0
  saves := 0
  tokenCalls := []
  sends := []

/-- The error of `ExchangeCodeForTokens` for an input of the wrong shape (oauth.go:96). -/
def formatError (codeWithState : String) : GoError :=
  .errorf ("invalid code format - expected \x27code#state\x27, got: " ++ codeWithState)

/-- The error of `ExchangeCodeForTokens` for a state that is not the verifier (oauth.go:104). -/
def stateMismatchError : GoError := .errorf "state mismatch - possible CSRF attack"

/-- The error of `ExchangeCodeForTokens` on a flow without a challenge (oauth.go:90). -/
def notInitializedError : GoError :=
  .errorf "PKCE challenge not initialized - call GenerateAuthURL first"

/-- The JSON object `ExchangeCodeForTokens` posts (oauth.go:107-114). -/
def codeGrant (authCode verifier state : String) : TokenRequest :=
  [("grant_type", "authorization_code"), ("client_id", ClientID), ("code", authCode),
    ("redirect_uri", RedirectURI), ("code_verifier", verifier), ("state", state)]

/-- A random source delivering the bytes `11, 48, 85, ...` and a stand-in for
the digest function. -/
def sampleCrypto : Crypto where
  random := .ok ((List.range 64).map (fun i => (i * 37 + 11) % 256))
  Sum256 := fun b => (List.range 32).map (fun i => (i * 7 + b.length) % 256)

/-- A random source that fails. -/
def brokenCrypto : Crypto where
  random := .error (.errorf "getrandom: no entropy")
  Sum256 := fun _ => []

/-- The unreserved characters PKCE allows in a verifier (RFC 7636 §4.1):
`A-Z`, `a-z`, `0-9`, `-`, `.`, `_`, `~`. -/
def isUnreserved (c : Char) : Bool :=
  ('A' ≤ c && c ≤ 'Z') || ('a' ≤ c && c ≤ 'z') || ('0' ≤ c && c ≤ '9') ||
    c == '-' || c == '.' || c == '_' || c == '~'

/-- The verifier `generateCodeVerifier` makes of the bytes `b`. -/
def verifierOf (b : List Nat) : String :=
  String.mk (b.map (fun x => charset.data.getD (x % 66) 'A'))

/-- The parameters `GenerateAuthURL` sets, in the order of the source
(oauth.go:53-61), for a given challenge. -/
def authParams (pkce : PKCEChallenge) : Values :=
  Values.Set (Values.Set (Values.Set (Values.Set (Values.Set (Values.Set (Values.Set
    (Values.Set [] "client_id" ClientID) "response_type" "code") "redirect_uri" RedirectURI)
    "scope" Scope) "code_challenge" pkce.Challenge) "code_challenge_method" pkce.Method)
    "code" "true") "state" pkce.Verifier

/-- The flow left by a successful `GenerateAuthURL` on `sampleCrypto`. -/
def sampleFlow : OAuthFlow := (GenerateAuthURL sampleCrypto NewOAuthFlow).1

/-- The verifier stored in `sampleFlow`. -/
def sampleVerifier : String :=
  "LwT4b_jOzW7eBmR2Z-hEpU5c~kHsX8fCnKva.iFqNydAlItQ1gDoLwT4jGrOzWBm"

/-- The URL returned by `GenerateAuthURL` on `sampleCrypto`. -/
def sampleURL : String :=
  match (GenerateAuthURL sampleCrypto NewOAuthFlow).2 with
  | .ok url => url
  | .error _ => ""

/-! ## Reading a query string back -/

/-- The value of a hexadecimal digit, as Go's `unhex` reads it. -/
def unhex (c : Nat) : Option Nat :=
  if 48 ≤ c ∧ c ≤ 57 then some (c - 48)
  else if 65 ≤ c ∧ c ≤ 70 then some (c - 55)
  else if 97 ≤ c ∧ c ≤ 102 then some (c - 87)
  else none

/-- What `url.QueryUnescape` makes of an escaped component: `%XX` is the byte
`XX`, `+` is a space, any other byte is itself. -/
def unescape : List Nat → Option (List Nat)
  | [] => some []
  | 37 :: a :: b :: rest =>
    match unhex a, unhex b, unescape rest with
    | some x, some y, some r => some ((16 * x + y) :: r)
    | _, _, _ => none
  | [37] => none
  | [37, _] => none
  | c :: rest =>
    if c = 43 then (unescape rest).map (fun r => 32 :: r)
    else (unescape rest).map (fun r => c :: r)

/-- The part of a byte string before the first `sep` and the part after it
(`strings.Cut`); without a `sep` everything is before. -/
def cutAt (sep : Nat) : List Nat → List Nat × List Nat
  | [] => ([], [])
  | c :: cs => if c = sep then ([], cs) else ((c :: (cutAt sep cs).1), (cutAt sep cs).2)

/-- The key and value of each non-empty piece of a query, unescaped. -/
def decodePieces : List (List Nat) → Option (List (List Nat × List Nat))
  | [] => some []
  | piece :: pieces =>
    if piece = [] then decodePieces pieces
    else
      match unescape (cutAt 61 piece).1, unescape (cutAt 61 piece).2, decodePieces pieces with
      | some k, some v, some r => some ((k, v) :: r)
      | _, _, _ => none

/-- The decoded parameters of a query string, in the order they appear, keys
and values as byte strings: the query is cut at every `&`, each piece at its
first `=`, and both sides are unescaped (what `url.ParseQuery` reads). -/
def decodeQuery (query : String) : Option (List (List Nat × List Nat)) :=
  decodePieces ((utf8Bytes query).splitOn 38)

/-- A key and a value as byte strings. -/
def param (key value : String) : List Nat × List Nat := (utf8Bytes key, utf8Bytes value)

/-- A world whose token endpoint answers every request with `status` and
`body`; only the body `token-json` parses. -/
def replyingEnv (status : Int) (body : String) : Env where
  now := tickingClock
  save := saveWritten
  token := fun _ _ => .reply status body
  unmarshalToken := fun b =>
    if b = "token-json" then .ok (freshToken 3600) else .error (.errorf "invalid character")
  base := fun _ _ => .error (.errorf "dial tcp: connection refused")
  bodyLeft := fun _ _ => ""

/-- The error of `GetClaudeSubCredentials` for a document without a credential
(storage.go:131). -/
def noCredentialsError : GoError := .errorf "no claudesub credentials found"

/-- A token endpoint call that fails: the request cannot be completed, the body
cannot be read, the status is not 200, or the body does not parse. -/
def isFailedReply (env : Env) (reply : TokenReply) : Bool :=
  match reply with
  | .doError _ => true
  | .readError _ => true
  | .reply status body =>
    status != 200 ||
      (match env.unmarshalToken body with
       | .error _ => true
       | .ok _ => false)

/-- A world whose auth file exists and is cut off in the middle. -/
def corruptWorld : World where
  disk := .corrupt (.errorf "unexpected end of JSON input")
  clockReads := 0
  saves := 0
  tokenCalls := []
  sends := []

/-- The header names `modifyRequestHeaders` deletes or sets anew. -/
def rewrittenKeys : List String :=
  ["X-Api-Key", "Authorization", "Anthropic-Beta", "User-Agent", "X-Stainless-Os",
    "X-Stainless-Lang", "X-Stainless-Retry-Count", "X-Stainless-Arch", "X-Stainless-Runtime",
    "X-Stainless-Runtime-Version", "X-Stainless-Package-Version"]

/-- Every entry of the header map that goes by one of the rewritten names sits
under the canonical form of its key, where `Header.Set` and `Header.Add` put
it; entries of other names may sit under any key. -/
def rewrittenKeysCanonical (h : Header) : Prop :=
  ∀ kv ∈ h, CanonicalMIMEHeaderKey kv.1 ∈ rewrittenKeys → CanonicalMIMEHeaderKey kv.1 = kv.1

/-- What a request handed to the transport carries for the token `t`, names
compared without regard to letter case: its one `Authorization` entry is the
single value `"Bearer " ++ t`, its one `anthropic-beta` entry is the single
value `BetaHeaders`, and it has no entry named `X-Api-Key`, `User-Agent` or
`X-Stainless-*`. -/
def carriesToken (q : Request) (t : String) : Prop :=
  q.Header.filter (fun kv => CanonicalMIMEHeaderKey kv.1 == "Authorization") =
    [("Authorization", ["Bearer " ++ t])] ∧
  q.Header.filter (fun kv => CanonicalMIMEHeaderKey kv.1 == "Anthropic-Beta") =
    [("Anthropic-Beta", [BetaHeaders])] ∧
  ∀ kv ∈ q.Header, CanonicalMIMEHeaderKey kv.1 ∉ strippedKeys

instance rewrittenKeysCanonical.decidable (h : Header) :
    Decidable (rewrittenKeysCanonical h) := by
  unfold rewrittenKeysCanonical
  infer_instance

instance carriesToken.decidable (q : Request) (t : String) : Decidable (carriesToken q t) := by
  unfold carriesToken
  infer_instance

/-- A request whose caller wrote two headers straight into the map, under
lower-case keys. -/
def rawRequest : Request where
  Method := "POST"
  URL := "https://api.anthropic.com/v1/messages"
  Header := [("x-api-key", ["sk-static"]), ("user-agent", ["sdk/1.0"])]
  Body := "\x7b\x7d"

/-! ## Arithmetic of the 64-bit operations -/

theorem wrap64_eq_self {x : Int} (h : isInt64 x) : wrap64 x = x := by
  unfold isInt64 at h
  unfold wrap64
  omega

theorem wrap64_ge_sub {x : Int} (h : isInt64 x) : x - 300000 ≤ wrap64 (x - 300000) := by
  unfold isInt64 at h
  unfold wrap64
  omega

theorem durationSeconds_exact {n : Int} (hlo : -9223372036 ≤ n) (hhi : n ≤ 9223372036) :
    durationSeconds n = n * 1000000000 := by
  unfold durationSeconds
  apply wrap64_eq_self
  unfold isInt64
  omega

theorem UnixMilli_add_seconds (t n : Int) :
    UnixMilli (timeAdd t (n * 1000000000)) = UnixMilli t + 1000 * n := by
  unfold UnixMilli timeAdd
  omega

/-! ## C1: the validity check -/

theorem IsClaudeSubTokenValid_eq (env : Env) (w : World) (creds : OAuthCredentials)
    (hdisk : w.disk = .doc { ClaudeSub := some creds }) :
    IsClaudeSubTokenValid env w =
      ({ w with clockReads := w.clockReads + 1 },
        .ok (decide (UnixMilli (env.now w.clockReads) < wrap64 (creds.Expires - 300000)))) := by
  simp [IsClaudeSubTokenValid, GetClaudeSubCredentials, LoadAuthData, hdisk]

/-- C1 (amended): for a stored credential whose expiry satisfies
`-2^63 + 300000 ≤ expires` (so that the `int64` subtraction `expires - 300000`
does not wrap) and every clock reading `now` (Unix ms), `IsClaudeSubTokenValid`
returns true exactly when `now < expires - 300000` and false exactly when
`now ≥ expires - 300000`; it is false at `now = expires - 300000` and true at
`now = expires - 300001`. -/
theorem IsClaudeSubTokenValid_iff_before_buffer (env : Env) (w : World)
    (creds : OAuthCredentials) (now : Int)
    (hdisk : w.disk = .doc { ClaudeSub := some creds })
    (hnow : UnixMilli (env.now w.clockReads) = now)
    (hlo : -2 ^ 63 + 300000 ≤ creds.Expires) (hhi : creds.Expires < 2 ^ 63) :
    ((IsClaudeSubTokenValid env w).2 = .ok true ↔ now < creds.Expires - 300000) ∧
    ((IsClaudeSubTokenValid env w).2 = .ok false ↔ now ≥ creds.Expires - 300000) ∧
    (now = creds.Expires - 300000 → (IsClaudeSubTokenValid env w).2 = .ok false) ∧
    (now = creds.Expires - 300001 → (IsClaudeSubTokenValid env w).2 = .ok true) := by
  have hw : wrap64 (creds.Expires - 300000) = creds.Expires - 300000 := by
    apply wrap64_eq_self
    unfold isInt64
    omega
  rw [IsClaudeSubTokenValid_eq env w creds hdisk, hnow, hw]
  refine ⟨?_, ?_, ?_, ?_⟩
  · simp
  · simp
  · intro h
    simp [h]
  · intro h
    simp [h]

/-- Witness for C1: a credential expiring at 2,000,000 ms, read at 1,700,000 ms
(the threshold) and found not valid. -/
theorem IsClaudeSubTokenValid_iff_before_buffer_witness :
    (IsClaudeSubTokenValid (offlineEnv 1700000000000) (worldWith (credsExpiring 2000000))).2
      = .ok false :=
  (IsClaudeSubTokenValid_iff_before_buffer (offlineEnv 1700000000000)
    (worldWith (credsExpiring 2000000)) (credsExpiring 2000000) 1700000 rfl (by decide)
    (by decide) (by decide)).2.2.1 (by decide)

/-- Counterexample to C1 as stated: with `expires = -2^63` and `now = 0` the
claim requires false (`0 ≥ expires - 300000`), but the `int64` subtraction
wraps to `2^63 - 300000` and `IsClaudeSubTokenValid` returns true. -/
theorem IsClaudeSubTokenValid_wraps_at_min_expiry :
    (IsClaudeSubTokenValid (offlineEnv 0) (worldWith (credsExpiring (-2 ^ 63)))).2 = .ok true ∧
    ¬ (UnixMilli ((offlineEnv 0).now 0) < (credsExpiring (-2 ^ 63)).Expires - 300000) := by
  constructor
  · decide
  · decide

/-! ## The credential manager on a stored credential -/

theorem GetClaudeSubCredentials_doc (w : World) (creds : OAuthCredentials)
    (hdisk : w.disk = .doc { ClaudeSub := some creds }) :
    GetClaudeSubCredentials w = .ok creds := by
  simp [GetClaudeSubCredentials, LoadAuthData, hdisk]

/-- The request body of the refresh grant for a given refresh token. -/
theorem RefreshToken_granted (env : Env) (w : World) (refreshToken body : String)
    (r : TokenResponse)
    (hreply : env.token w.tokenCalls.length
      (refreshGrant refreshToken)
        = .reply 200 body)
    (hparse : env.unmarshalToken body = .ok r) :
    RefreshToken env w refreshToken =
      ({ w with tokenCalls := w.tokenCalls ++
          [(refreshGrant refreshToken)] }, .ok r) := by
  unfold refreshGrant at hreply
  simp [RefreshToken, refreshGrant, hreply, hparse]

theorem StoreClaudeSubCredentials_written (env : Env) (w : World) (d : AuthData)
    (r : TokenResponse) (hdisk : w.disk = .doc d) (hsave : env.save w.saves = .written) :
    StoreClaudeSubCredentials env w r =
      ({ w with
          disk := .doc { ClaudeSub := some (storedCredentials r
            (UnixMilli (timeAdd (env.now w.clockReads) (durationSeconds r.ExpiresIn)))) }
          clockReads := w.clockReads + 1
          saves := w.saves + 1 }, none) := by
  simp [StoreClaudeSubCredentials, LoadAuthData, SaveAuthData, storedCredentials, hdisk, hsave]

theorem RefreshClaudeSubToken_granted (env : Env) (w : World) (creds : OAuthCredentials)
    (body : String) (r : TokenResponse)
    (hdisk : w.disk = .doc { ClaudeSub := some creds })
    (hrefresh : creds.Refresh ≠ "")
    (hreply : env.token w.tokenCalls.length
      (refreshGrant creds.Refresh)
        = .reply 200 body)
    (hparse : env.unmarshalToken body = .ok r)
    (hsave : env.save w.saves = .written) :
    RefreshClaudeSubToken env w =
      ({ disk := .doc { ClaudeSub := some (storedCredentials r
            (UnixMilli (timeAdd (env.now w.clockReads) (durationSeconds r.ExpiresIn)))) }
         clockReads := w.clockReads + 1
         saves := w.saves + 1
         tokenCalls := w.tokenCalls ++
          [(refreshGrant creds.Refresh)]
         sends := w.sends }, none) := by
  unfold RefreshClaudeSubToken
  rw [GetClaudeSubCredentials_doc w creds hdisk]
  simp only [hrefresh, if_false]
  rw [RefreshToken_granted env w creds.Refresh body r hreply hparse]
  simp only
  rw [StoreClaudeSubCredentials_written env
    { w with tokenCalls := w.tokenCalls ++ [refreshGrant creds.Refresh] }
    { ClaudeSub := some creds } r hdisk hsave]

theorem GetValidAccessToken_valid (env : Env) (w : World) (creds : OAuthCredentials)
    (hdisk : w.disk = .doc { ClaudeSub := some creds })
    (hvalid : UnixMilli (env.now w.clockReads) < wrap64 (creds.Expires - 300000)) :
    GetValidAccessToken env w =
      ({ w with clockReads := w.clockReads + 1 }, .ok creds.Access) := by
  unfold GetValidAccessToken
  rw [IsClaudeSubTokenValid_eq env w creds hdisk]
  simp [hvalid, GetClaudeSubCredentials, LoadAuthData, hdisk]

theorem GetValidAccessToken_expired (env : Env) (w : World) (creds : OAuthCredentials)
    (body : String) (r : TokenResponse)
    (hdisk : w.disk = .doc { ClaudeSub := some creds })
    (hexpired : ¬ UnixMilli (env.now w.clockReads) < wrap64 (creds.Expires - 300000))
    (hrefresh : creds.Refresh ≠ "")
    (hreply : env.token w.tokenCalls.length
      (refreshGrant creds.Refresh)
        = .reply 200 body)
    (hparse : env.unmarshalToken body = .ok r)
    (hsave : env.save w.saves = .written) :
    GetValidAccessToken env w =
      ({ disk := .doc { ClaudeSub := some (storedCredentials r
            (UnixMilli (timeAdd (env.now (w.clockReads + 1)) (durationSeconds r.ExpiresIn)))) }
         clockReads := w.clockReads + 2
         saves := w.saves + 1
         tokenCalls := w.tokenCalls ++
          [(refreshGrant creds.Refresh)]
         sends := w.sends }, .ok r.AccessToken) := by
  unfold GetValidAccessToken
  rw [IsClaudeSubTokenValid_eq env w creds hdisk]
  simp only [hexpired, decide_False, Bool.not_false, if_true]
  rw [RefreshClaudeSubToken_granted env { w with clockReads := w.clockReads + 1 } creds body r
    hdisk hrefresh hreply hparse hsave]
  simp [GetClaudeSubCredentials, LoadAuthData, storedCredentials]

/-! ## C2, C3, C4: `GetValidAccessToken` -/

/-- C2 (amended): for a stored credential with a non-empty refresh token,
`expires ≥ -2^63 + 300000` and `now ≥ expires - 300000`, if the token endpoint
answers the refresh grant with a 200 token response `r` with
`|r.expires_in| ≤ 9223372036` and the document write succeeds, then
`GetValidAccessToken` performs exactly one refresh call, returns
`r.access_token` without error, and leaves the stored credential with
`access = r.access_token`, `refresh = r.refresh_token` and
`expires = store_time_ms + 1000 * r.expires_in`. -/
theorem GetValidAccessToken_refreshes_expired (env : Env) (w : World)
    (creds : OAuthCredentials) (body : String) (r : TokenResponse) (now : Int)
    (hdisk : w.disk = .doc { ClaudeSub := some creds })
    (hrefresh : creds.Refresh ≠ "")
    (hnow : UnixMilli (env.now w.clockReads) = now)
    (hexpired : now ≥ creds.Expires - 300000)
    (hlo : -2 ^ 63 + 300000 ≤ creds.Expires) (hhi : creds.Expires < 2 ^ 63)
    (hreply : env.token w.tokenCalls.length (refreshGrant creds.Refresh) = .reply 200 body)
    (hparse : env.unmarshalToken body = .ok r)
    (hsave : env.save w.saves = .written)
    (hnlo : -9223372036 ≤ r.ExpiresIn) (hnhi : r.ExpiresIn ≤ 9223372036) :
    GetValidAccessToken env w =
      ({ disk := .doc { ClaudeSub := some (storedCredentials r
            (UnixMilli (env.now (w.clockReads + 1)) + 1000 * r.ExpiresIn)) }
         clockReads := w.clockReads + 2
         saves := w.saves + 1
         tokenCalls := w.tokenCalls ++ [refreshGrant creds.Refresh]
         sends := w.sends }, .ok r.AccessToken) := by
  have hw : wrap64 (creds.Expires - 300000) = creds.Expires - 300000 := by
    apply wrap64_eq_self
    unfold isInt64
    omega
  have hexp : ¬ UnixMilli (env.now w.clockReads) < wrap64 (creds.Expires - 300000) := by
    rw [hw, hnow]
    omega
  rw [GetValidAccessToken_expired env w creds body r hdisk hexp hrefresh hreply hparse hsave,
    durationSeconds_exact hnlo hnhi, UnixMilli_add_seconds]

/-- Witness for C2: a credential that expired long ago is refreshed once and
the new access token is returned. -/
theorem GetValidAccessToken_refreshes_expired_witness :
    GetValidAccessToken (grantingEnv tickingClock (freshToken 3600) upstreamOk saveWritten)
        (worldWith (credsExpiring 0)) =
      ({ disk := .doc { ClaudeSub := some (storedCredentials (freshToken 3600)
            (UnixMilli (tickingClock 1) + 1000 * 3600)) }
         clockReads := 2
         saves := 1
         tokenCalls := [refreshGrant "refresh-0"]
         sends := [] }, .ok "access-1") :=
  GetValidAccessToken_refreshes_expired
    (grantingEnv tickingClock (freshToken 3600) upstreamOk saveWritten)
    (worldWith (credsExpiring 0)) (credsExpiring 0) "token-json" (freshToken 3600)
    1700000000000 rfl (by decide) (by decide) (by decide) (by decide) (by decide) rfl rfl rfl
    (by decide) (by decide)

/-- Counterexample to C2 as stated, at three inputs.  (a) With
`expires = -2^63` and `now = 0` the credential is past its threshold, yet the
wrapped subtraction makes the check pass: no refresh call is made and the old
access token is returned.  (b) With `expires_in = 10^10` the multiplication by
`time.Second` wraps and the stored expiry is not
`store_time_ms + 1000 * expires_in`.  (c) When the document cannot be written
the call returns an error. -/
theorem GetValidAccessToken_refresh_claim_fails :
    (GetValidAccessToken (grantingEnv (fun _ => 0) (freshToken 3600) upstreamOk saveWritten)
        (worldWith (credsExpiring (-2 ^ 63))) =
      ({ worldWith (credsExpiring (-2 ^ 63)) with clockReads := 1 }, .ok "access-0") ∧
      UnixMilli 0 ≥ (credsExpiring (-2 ^ 63)).Expires - 300000) ∧
    ((GetValidAccessToken
        (grantingEnv tickingClock (freshToken 10000000000) upstreamOk saveWritten)
        (worldWith (credsExpiring 0))).1.disk =
      .doc { ClaudeSub := some (storedCredentials (freshToken 10000000000) (-6746744072710)) } ∧
      (-6746744072710 : Int) ≠ UnixMilli (tickingClock 1) + 1000 * 10000000000) ∧
    (GetValidAccessToken (grantingEnv tickingClock (freshToken 3600) upstreamOk saveDenied)
        (worldWith (credsExpiring 0))).2 =
      .error (.wrap "failed to refresh expired token"
        (.wrap "failed to store refreshed credentials"
          (.wrap "failed to save claudesub credentials"
            (.wrap "failed to create data directory"
              (.errorf "mkdir: permission denied"))))) := by
  refine ⟨⟨?_, ?_⟩, ⟨?_, ?_⟩, ?_⟩
  · decide
  · decide
  · decide
  · decide
  · decide

/-- C3: for a stored credential with `now < expires - 300000`,
`GetValidAccessToken` returns exactly the stored access string with no error,
makes no token-endpoint call (and no upstream send), and leaves the stored
document unchanged; the only trace is one reading of the clock. -/
theorem GetValidAccessToken_valid_returns_stored (env : Env) (w : World)
    (creds : OAuthCredentials) (now : Int)
    (hdisk : w.disk = .doc { ClaudeSub := some creds })
    (hint : isInt64 creds.Expires)
    (hnow : UnixMilli (env.now w.clockReads) = now)
    (hvalid : now < creds.Expires - 300000) :
    GetValidAccessToken env w = ({ w with clockReads := w.clockReads + 1 }, .ok creds.Access) ∧
    (GetValidAccessToken env w).1.tokenCalls = w.tokenCalls ∧
    (GetValidAccessToken env w).1.sends = w.sends ∧
    (GetValidAccessToken env w).1.saves = w.saves ∧
    (GetValidAccessToken env w).1.disk = w.disk := by
  have hv : UnixMilli (env.now w.clockReads) < wrap64 (creds.Expires - 300000) := by
    have := wrap64_ge_sub hint
    omega
  rw [GetValidAccessToken_valid env w creds hdisk hv]
  simp

/-- Witness for C3: a credential expiring ten minutes after the clock reading. -/
theorem GetValidAccessToken_valid_returns_stored_witness :
    GetValidAccessToken (offlineEnv 1700000000000000000)
        (worldWith (credsExpiring 1700000600000)) =
      ({ worldWith (credsExpiring 1700000600000) with clockReads := 1 }, .ok "access-0") :=
  (GetValidAccessToken_valid_returns_stored (offlineEnv 1700000000000000000)
    (worldWith (credsExpiring 1700000600000)) (credsExpiring 1700000600000) 1700000000000
    rfl (by decide) (by decide) (by decide)).1

/-- C4: when no credential document exists or the document's credential slot
is empty, `GetValidAccessToken` returns the no-credential error of
`GetClaudeSubCredentials`, and the world is left as it was: no refresh, no
token-endpoint call, no upstream send, no write, no clock reading. -/
theorem GetValidAccessToken_no_credentials (env : Env) (w : World)
    (hdisk : w.disk = .missing ∨ w.disk = .doc { ClaudeSub := none }) :
    GetValidAccessToken env w = (w, .error (.errorf "no claudesub credentials found")) ∧
    GetClaudeSubCredentials w = .error (.errorf "no claudesub credentials found") ∧
    (GetValidAccessToken env w).1.tokenCalls = w.tokenCalls ∧
    (GetValidAccessToken env w).1.sends = w.sends := by
  rcases hdisk with h | h <;>
    simp [GetValidAccessToken, IsClaudeSubTokenValid, GetClaudeSubCredentials, LoadAuthData, h]

/-- Witness for C4: a fresh data directory on a machine with a working token
endpoint. -/
theorem GetValidAccessToken_no_credentials_witness :
    GetValidAccessToken (grantingEnv tickingClock (freshToken 3600) upstreamOk saveWritten)
        { disk := .missing, clockReads := 0, saves := 0, tokenCalls := [], sends := [] } =
      ({ disk := .missing, clockReads := 0, saves := 0, tokenCalls := [], sends := [] },
        .error (.errorf "no claudesub credentials found")) :=
  (GetValidAccessToken_no_credentials
    (grantingEnv tickingClock (freshToken 3600) upstreamOk saveWritten)
    { disk := .missing, clockReads := 0, saves := 0, tokenCalls := [], sends := [] }
    (Or.inl rfl)).1

/-! ## Frame properties: what the credential manager never touches -/

theorem SaveAuthData_sends (env : Env) (w : World) (d : AuthData) :
    (SaveAuthData env w d).1.sends = w.sends := by
  unfold SaveAuthData
  split <;> rfl

theorem StoreClaudeSubCredentials_sends (env : Env) (w : World) (r : TokenResponse) :
    (StoreClaudeSubCredentials env w r).1.sends = w.sends := by
  unfold StoreClaudeSubCredentials
  cases LoadAuthData w with
  | error e => rfl
  | ok d =>
    simp only
    generalize hd : ({ d with ClaudeSub := some _ } : AuthData) = d1
    have h := SaveAuthData_sends env { w with clockReads := w.clockReads + 1 } d1
    rcases hS : SaveAuthData env { w with clockReads := w.clockReads + 1 } d1 with ⟨w2, _ | e⟩
    · rw [hS] at h
      simpa using h
    · rw [hS] at h
      simpa using h

theorem RefreshToken_sends (env : Env) (w : World) (t : String) :
    (RefreshToken env w t).1.sends = w.sends := by
  unfold RefreshToken
  simp only
  split
  · rfl
  · rfl
  · split
    · rfl
    · split <;> rfl

theorem RefreshClaudeSubToken_sends (env : Env) (w : World) :
    (RefreshClaudeSubToken env w).1.sends = w.sends := by
  unfold RefreshClaudeSubToken
  cases GetClaudeSubCredentials w with
  | error e => rfl
  | ok creds =>
    simp only
    by_cases hr : creds.Refresh = ""
    · simp [hr]
    · simp only [hr, if_false]
      have h1 := RefreshToken_sends env w creds.Refresh
      rcases hRT : RefreshToken env w creds.Refresh with ⟨w1, e | tr⟩
      · rw [hRT] at h1
        simpa using h1
      · rw [hRT] at h1
        simp only at h1 ⊢
        have h2 := StoreClaudeSubCredentials_sends env w1 tr
        rcases hS : StoreClaudeSubCredentials env w1 tr with ⟨w2, _ | e⟩
        · rw [hS] at h2
          simp only at h2 ⊢
          rw [h2, h1]
        · rw [hS] at h2
          simp only at h2 ⊢
          rw [h2, h1]

theorem IsClaudeSubTokenValid_sends (env : Env) (w : World) :
    (IsClaudeSubTokenValid env w).1.sends = w.sends := by
  unfold IsClaudeSubTokenValid
  split <;> rfl

theorem GetValidAccessToken_sends (env : Env) (w : World) :
    (GetValidAccessToken env w).1.sends = w.sends := by
  unfold GetValidAccessToken
  have h1 := IsClaudeSubTokenValid_sends env w
  rcases hV : IsClaudeSubTokenValid env w with ⟨w1, e | valid⟩
  · rw [hV] at h1
    simpa using h1
  · rw [hV] at h1
    simp only at h1 ⊢
    have h2 : ((if !valid then RefreshClaudeSubToken env w1 else (w1, none)) :
        World × Option GoError).1.sends = w.sends := by
      split
      · rw [RefreshClaudeSubToken_sends, h1]
      · exact h1
    rcases hR : ((if !valid then RefreshClaudeSubToken env w1 else (w1, none)) :
        World × Option GoError) with ⟨w2, _ | e⟩
    · rw [hR] at h2
      simp only at h2 ⊢
      cases GetClaudeSubCredentials w2 <;> exact h2
    · rw [hR] at h2
      simpa using h2

theorem modifyRequestHeaders_sends (env : Env) (w : World) (req : Request) :
    (modifyRequestHeaders env w req).1.sends = w.sends := by
  unfold modifyRequestHeaders
  have h1 := GetValidAccessToken_sends env w
  rcases hG : GetValidAccessToken env w with ⟨w1, e | t⟩
  · rw [hG] at h1
    simpa using h1
  · rw [hG] at h1
    simpa using h1

/-! ## The transport: one send, or one retry -/

theorem modifyRequestHeaders_ok (env : Env) (w w1 : World) (req : Request) (t : String)
    (htoken : GetValidAccessToken env w = (w1, .ok t)) :
    modifyRequestHeaders env w req =
      (w1, .ok { req with Header := rewriteHeaders req.Header t }) := by
  simp [modifyRequestHeaders, htoken]

theorem modifyRequestHeaders_error (env : Env) (w w1 : World) (req : Request) (e : GoError)
    (htoken : GetValidAccessToken env w = (w1, .error e)) :
    modifyRequestHeaders env w req =
      (w1, .error (.wrap "failed to get valid access token" e)) := by
  simp [modifyRequestHeaders, htoken]

/-- The path of `RoundTrip` through a 401 and a granted retry, whatever the
second response is. -/
theorem RoundTrip_retry (env : Env) (w w1 w3 w4 : World) (req : Request) (t t2 : String)
    (resp resp2 : Response)
    (htoken : GetValidAccessToken env w = (w1, .ok t))
    (hbase : env.base w1.sends.length (stamped req t) = .ok resp)
    (hstatus : resp.StatusCode = 401)
    (hrefresh : RefreshClaudeSubToken env { w1 with sends := w1.sends ++ [stamped req t] }
        = (w3, none))
    (htoken2 : GetValidAccessToken env w3 = (w4, .ok t2))
    (hbase2 : env.base w4.sends.length (stamped (retryClone env w1.sends.length req t) t2)
      = .ok resp2) :
    RoundTrip env w req =
      ({ w4 with sends := w4.sends ++ [stamped (retryClone env w1.sends.length req t) t2] },
        .ok resp2) := by
  simp only [stamped, retryClone] at hbase hrefresh hbase2 ⊢
  unfold RoundTrip
  simp only
  rw [modifyRequestHeaders_ok env w w1 req t htoken]
  simp only [baseRoundTrip, hbase, hstatus, if_true, hrefresh]
  rw [modifyRequestHeaders_ok env w3 w4 _ t2 htoken2]
  simp only [hbase2]

/-! ## C5, C6: the retry after a 401 -/

/-- The retry path on a valid stored credential: one forced refresh, two sends
(the stamped request, then the stamped retry clone), and the second response
handed back with a nil error whatever its status. -/
theorem RoundTrip_valid_then_401 (env : Env) (w : World) (creds : OAuthCredentials)
    (req : Request) (body : String) (r : TokenResponse) (resp1 resp2 : Response)
    (hdisk : w.disk = .doc { ClaudeSub := some creds })
    (hint : isInt64 creds.Expires)
    (hrefresh : creds.Refresh ≠ "")
    (hvalid : UnixMilli (env.now w.clockReads) < creds.Expires - 300000)
    (hfirst : env.base w.sends.length (stamped req creds.Access) = .ok resp1)
    (h401 : resp1.StatusCode = 401)
    (hreply : env.token w.tokenCalls.length (refreshGrant creds.Refresh) = .reply 200 body)
    (hparse : env.unmarshalToken body = .ok r)
    (hsave : env.save w.saves = .written)
    (hint2 : isInt64 (refreshedExpiry env (w.clockReads + 1) r))
    (hvalid2 : UnixMilli (env.now (w.clockReads + 2)) <
      refreshedExpiry env (w.clockReads + 1) r - 300000)
    (hsecond : env.base (w.sends.length + 1)
      (stamped (retryClone env w.sends.length req creds.Access) r.AccessToken) = .ok resp2) :
    RoundTrip env w req =
      ({ disk := .doc { ClaudeSub := some (storedCredentials r
          (refreshedExpiry env (w.clockReads + 1) r)) }
         clockReads := w.clockReads + 3
         saves := w.saves + 1
         tokenCalls := w.tokenCalls ++ [refreshGrant creds.Refresh]
         sends := w.sends ++ [stamped req creds.Access,
           stamped (retryClone env w.sends.length req creds.Access) r.AccessToken] },
        .ok resp2) := by
  have hv : UnixMilli (env.now w.clockReads) < wrap64 (creds.Expires - 300000) := by
    have := wrap64_ge_sub hint
    omega
  have hv2 : UnixMilli (env.now (w.clockReads + 2)) <
      wrap64 (refreshedExpiry env (w.clockReads + 1) r - 300000) := by
    have := wrap64_ge_sub hint2
    omega
  have h1 := GetValidAccessToken_valid env w creds hdisk hv
  have h2 := RefreshClaudeSubToken_granted env
    { w with clockReads := w.clockReads + 1,
             sends := w.sends ++ [stamped req creds.Access] }
    creds body r hdisk hrefresh hreply hparse hsave
  have h3 := GetValidAccessToken_valid env
    { disk := .doc { ClaudeSub := some (storedCredentials r
          (refreshedExpiry env (w.clockReads + 1) r)) }
      clockReads := w.clockReads + 1 + 1
      saves := w.saves + 1
      tokenCalls := w.tokenCalls ++ [refreshGrant creds.Refresh]
      sends := w.sends ++ [stamped req creds.Access] }
    (storedCredentials r (refreshedExpiry env (w.clockReads + 1) r)) rfl hv2
  have h4 := RoundTrip_retry env w _ _ _ req creds.Access r.AccessToken resp1 resp2 h1
    hfirst h401 h2 h3 (by simpa using hsecond)
  rw [h4]
  simp [storedCredentials]

/-- C5 (amended): for a stored credential with a non-empty refresh token that
passes the validity check of the first send (`now < expires - 300000`), a
token endpoint that grants the refresh with a response `r` whose credential
passes the validity check of the retry, and a document write that succeeds:
if the upstream answers 401 to the first send and 200 to the second,
`RoundTrip` performs exactly one refresh call and exactly two outbound sends,
and returns the 200 response with no error.  The second send is the retry
clone: the headers of the request stamped with the new token, the body stream
as the first send left it. -/
theorem RoundTrip_401_then_200 (env : Env) (w : World) (creds : OAuthCredentials)
    (req : Request) (body : String) (r : TokenResponse) (resp1 resp2 : Response)
    (hdisk : w.disk = .doc { ClaudeSub := some creds })
    (hint : isInt64 creds.Expires)
    (hrefresh : creds.Refresh ≠ "")
    (hvalid : UnixMilli (env.now w.clockReads) < creds.Expires - 300000)
    (hfirst : env.base w.sends.length (stamped req creds.Access) = .ok resp1)
    (h401 : resp1.StatusCode = 401)
    (hreply : env.token w.tokenCalls.length (refreshGrant creds.Refresh) = .reply 200 body)
    (hparse : env.unmarshalToken body = .ok r)
    (hsave : env.save w.saves = .written)
    (hint2 : isInt64 (refreshedExpiry env (w.clockReads + 1) r))
    (hvalid2 : UnixMilli (env.now (w.clockReads + 2)) <
      refreshedExpiry env (w.clockReads + 1) r - 300000)
    (hsecond : env.base (w.sends.length + 1)
      (stamped (retryClone env w.sends.length req creds.Access) r.AccessToken) = .ok resp2)
    (h200 : resp2.StatusCode = 200) :
    (RoundTrip env w req).2 = .ok resp2 ∧
    (∃ resp, (RoundTrip env w req).2 = .ok resp ∧ resp.StatusCode = 200) ∧
    (RoundTrip env w req).1.tokenCalls = w.tokenCalls ++ [refreshGrant creds.Refresh] ∧
    (RoundTrip env w req).1.sends =
      w.sends ++ [stamped req creds.Access,
        stamped (retryClone env w.sends.length req creds.Access) r.AccessToken] := by
  rw [RoundTrip_valid_then_401 env w creds req body r resp1 resp2 hdisk hint hrefresh hvalid
    hfirst h401 hreply hparse hsave hint2 hvalid2 hsecond]
  exact ⟨rfl, ⟨resp2, rfl, h200⟩, rfl, rfl⟩

/-- Witness for C5: a credential with ten minutes left, an upstream that
rejects it once, and a token endpoint granting one hour. -/
theorem RoundTrip_401_then_200_witness :
    (RoundTrip (grantingEnv tickingClock (freshToken 3600) (upstream401Then 200) saveWritten)
        (worldWith (credsExpiring 1700000600000)) apiRequest).2 =
      .ok { StatusCode := 200, Header := [], Body := "" } ∧
    (RoundTrip (grantingEnv tickingClock (freshToken 3600) (upstream401Then 200) saveWritten)
        (worldWith (credsExpiring 1700000600000)) apiRequest).1.tokenCalls =
      [] ++ [refreshGrant "refresh-0"] :=
  have h := RoundTrip_401_then_200
    (grantingEnv tickingClock (freshToken 3600) (upstream401Then 200) saveWritten)
    (worldWith (credsExpiring 1700000600000)) (credsExpiring 1700000600000) apiRequest
    "token-json" (freshToken 3600) { StatusCode := 401, Header := [], Body := "" }
    { StatusCode := 200, Header := [], Body := "" }
    rfl (by decide) (by decide) (by decide) rfl rfl rfl rfl rfl (by decide) (by decide) rfl rfl
  ⟨h.1, h.2.2.1⟩

/-- Counterexample to C5 as stated: the upstream answers 401 then 200 and the
token endpoint grants every refresh, yet two refresh calls are made, (a) when
the stored credential is already past its threshold at the first send, and
(b) when the granted token lives for 60 seconds only; and (c) when the
refreshed credential cannot be written, an error is returned in place of the
200 response. -/
theorem RoundTrip_401_then_200_two_refreshes :
    ((RoundTrip (grantingEnv tickingClock (freshToken 3600) (upstream401Then 200) saveWritten)
        (worldWith (credsExpiring 0)) apiRequest).2 =
      .ok { StatusCode := 200, Header := [], Body := "" } ∧
     (RoundTrip (grantingEnv tickingClock (freshToken 3600) (upstream401Then 200) saveWritten)
        (worldWith (credsExpiring 0)) apiRequest).1.tokenCalls =
      [refreshGrant "refresh-0", refreshGrant "refresh-1"]) ∧
    ((RoundTrip (grantingEnv tickingClock (freshToken 60) (upstream401Then 200) saveWritten)
        (worldWith (credsExpiring 1700000600000)) apiRequest).2 =
      .ok { StatusCode := 200, Header := [], Body := "" } ∧
     (RoundTrip (grantingEnv tickingClock (freshToken 60) (upstream401Then 200) saveWritten)
        (worldWith (credsExpiring 1700000600000)) apiRequest).1.tokenCalls =
      [refreshGrant "refresh-0", refreshGrant "refresh-1"]) ∧
    (RoundTrip (grantingEnv tickingClock (freshToken 3600) (upstream401Then 200) saveDenied)
        (worldWith (credsExpiring 1700000600000)) apiRequest).2 =
      .error (.wrap "authentication failed and token refresh failed"
        (.wrap "failed to store refreshed credentials"
          (.wrap "failed to save claudesub credentials"
            (.wrap "failed to create data directory"
              (.errorf "mkdir: permission denied"))))) := by
  refine ⟨⟨?_, ?_⟩, ⟨?_, ?_⟩, ?_⟩ <;> decide

/-- C6 (amended): for a stored credential with a non-empty refresh token that
passes the validity check of the first send, a token endpoint that grants the
refresh with a response whose credential passes the validity check of the
retry, and a document write that succeeds: if the upstream answers 401 to
both the first send and the retry, `RoundTrip` hands the second 401 response
itself back to the caller with a nil error (it does not turn it into an
error), after exactly one refresh call, made by `RefreshClaudeSubToken`
directly without consulting the validity check, and exactly two outbound
sends.  The second send is the retry clone: the headers of the request stamped
with the new token, the body stream as the first send left it. -/
theorem RoundTrip_401_twice (env : Env) (w : World) (creds : OAuthCredentials)
    (req : Request) (body : String) (r : TokenResponse) (resp1 resp2 : Response)
    (hdisk : w.disk = .doc { ClaudeSub := some creds })
    (hint : isInt64 creds.Expires)
    (hrefresh : creds.Refresh ≠ "")
    (hvalid : UnixMilli (env.now w.clockReads) < creds.Expires - 300000)
    (hfirst : env.base w.sends.length (stamped req creds.Access) = .ok resp1)
    (h401 : resp1.StatusCode = 401)
    (hreply : env.token w.tokenCalls.length (refreshGrant creds.Refresh) = .reply 200 body)
    (hparse : env.unmarshalToken body = .ok r)
    (hsave : env.save w.saves = .written)
    (hint2 : isInt64 (refreshedExpiry env (w.clockReads + 1) r))
    (hvalid2 : UnixMilli (env.now (w.clockReads + 2)) <
      refreshedExpiry env (w.clockReads + 1) r - 300000)
    (hsecond : env.base (w.sends.length + 1)
      (stamped (retryClone env w.sends.length req creds.Access) r.AccessToken) = .ok resp2)
    (h401again : resp2.StatusCode = 401) :
    (RoundTrip env w req).2 = .ok resp2 ∧
    (∀ e, (RoundTrip env w req).2 ≠ .error e) ∧
    (∃ resp, (RoundTrip env w req).2 = .ok resp ∧ resp.StatusCode = 401) ∧
    (RoundTrip env w req).1.tokenCalls = w.tokenCalls ++ [refreshGrant creds.Refresh] ∧
    (RoundTrip env w req).1.sends =
      w.sends ++ [stamped req creds.Access,
        stamped (retryClone env w.sends.length req creds.Access) r.AccessToken] := by
  rw [RoundTrip_valid_then_401 env w creds req body r resp1 resp2 hdisk hint hrefresh hvalid
    hfirst h401 hreply hparse hsave hint2 hvalid2 hsecond]
  refine ⟨rfl, ?_, ⟨resp2, rfl, h401again⟩, rfl, rfl⟩
  intro e h
  cases h

/-- Witness for C6: a credential with ten minutes left and an upstream that
rejects every send. -/
theorem RoundTrip_401_twice_witness :
    (RoundTrip (grantingEnv tickingClock (freshToken 3600) (upstream401Then 401) saveWritten)
        (worldWith (credsExpiring 1700000600000)) apiRequest).2 =
      .ok { StatusCode := 401, Header := [], Body := "" } ∧
    (RoundTrip (grantingEnv tickingClock (freshToken 3600) (upstream401Then 401) saveWritten)
        (worldWith (credsExpiring 1700000600000)) apiRequest).1.sends =
      [] ++ [stamped apiRequest "access-0",
        stamped (retryClone
          (grantingEnv tickingClock (freshToken 3600) (upstream401Then 401) saveWritten)
          0 apiRequest "access-0") "access-1"] :=
  have h := RoundTrip_401_twice
    (grantingEnv tickingClock (freshToken 3600) (upstream401Then 401) saveWritten)
    (worldWith (credsExpiring 1700000600000)) (credsExpiring 1700000600000) apiRequest
    "token-json" (freshToken 3600) { StatusCode := 401, Header := [], Body := "" }
    { StatusCode := 401, Header := [], Body := "" }
    rfl (by decide) (by decide) (by decide) rfl rfl rfl rfl rfl (by decide) (by decide) rfl rfl
  ⟨h.1, h.2.2.2.2⟩

/-- Counterexample to C6 as stated: (a) with a valid stored credential, a
granting token endpoint and an upstream answering 401 to both sends,
`RoundTrip` returns the 401 response with a nil error, not an error; (b) with
a stored credential already past its threshold, or (c) a granted token that
lives for 60 seconds only, two refresh calls are made; (d) when the refreshed
credential cannot be written there is one send only. -/
theorem RoundTrip_401_twice_returns_response :
    ((RoundTrip (grantingEnv tickingClock (freshToken 3600) (upstream401Then 401) saveWritten)
        (worldWith (credsExpiring 1700000600000)) apiRequest).2 =
      .ok { StatusCode := 401, Header := [], Body := "" } ∧
     (RoundTrip (grantingEnv tickingClock (freshToken 3600) (upstream401Then 401) saveWritten)
        (worldWith (credsExpiring 1700000600000)) apiRequest).1.tokenCalls =
      [refreshGrant "refresh-0"]) ∧
    (RoundTrip (grantingEnv tickingClock (freshToken 3600) (upstream401Then 401) saveWritten)
        (worldWith (credsExpiring 0)) apiRequest).1.tokenCalls =
      [refreshGrant "refresh-0", refreshGrant "refresh-1"] ∧
    (RoundTrip (grantingEnv tickingClock (freshToken 60) (upstream401Then 401) saveWritten)
        (worldWith (credsExpiring 1700000600000)) apiRequest).1.tokenCalls =
      [refreshGrant "refresh-0", refreshGrant "refresh-1"] ∧
    (RoundTrip (grantingEnv tickingClock (freshToken 3600) (upstream401Then 401) saveDenied)
        (worldWith (credsExpiring 1700000600000)) apiRequest).1.sends =
      [stamped apiRequest "access-0"] := by
  refine ⟨⟨?_, ?_⟩, ?_, ?_, ?_⟩ <;> decide

/-! ## C7, C8, C9: bounds and failure paths of `RoundTrip` -/

theorem GoError.Wraps_self (e : GoError) : GoError.Wraps e e = true := by
  cases e <;> simp [GoError.Wraps]


/-- C7: for every request, every stored document and every behaviour of the
upstream API and the token endpoint, one call of `RoundTrip` hands at most two
requests to the underlying transport. -/
theorem RoundTrip_at_most_two_sends (env : Env) (w : World) (req : Request) :
    ∃ sent : List Request,
      (RoundTrip env w req).1.sends = w.sends ++ sent ∧ sent.length ≤ 2 := by
  unfold RoundTrip
  simp only
  have hm := modifyRequestHeaders_sends env w req
  rcases hM : modifyRequestHeaders env w req with ⟨w1, e | q1⟩
  · rw [hM] at hm
    exact ⟨[], by simpa using hm, by simp⟩
  · rw [hM] at hm
    simp only [baseRoundTrip] at hm ⊢
    cases hB : env.base w1.sends.length q1 with
    | error e => exact ⟨[q1], by simp [hm], by simp⟩
    | ok resp =>
      simp only
      by_cases h401 : resp.StatusCode = 401
      · simp only [h401, if_true]
        have hr := RefreshClaudeSubToken_sends env { w1 with sends := w1.sends ++ [q1] }
        rcases hR : RefreshClaudeSubToken env { w1 with sends := w1.sends ++ [q1] }
          with ⟨w3, _ | e⟩
        · rw [hR] at hr
          simp only at hr ⊢
          have hm2 := modifyRequestHeaders_sends env w3
            { req with Body := env.bodyLeft w1.sends.length q1 }
          rcases hM2 : modifyRequestHeaders env w3
            { req with Body := env.bodyLeft w1.sends.length q1 } with ⟨w4, e | q2⟩
          · rw [hM2] at hm2
            simp only at hm2 ⊢
            exact ⟨[q1], by rw [hm2, hr, hm], by simp⟩
          · rw [hM2] at hm2
            simp only at hm2 ⊢
            cases hB2 : env.base w4.sends.length q2 with
            | error e => exact ⟨[q1, q2], by simp [hm2, hr, hm], by simp⟩
            | ok resp2 => exact ⟨[q1, q2], by simp [hm2, hr, hm], by simp⟩
        · rw [hR] at hr
          simp only at hr ⊢
          exact ⟨[q1], by rw [hr, hm], by simp⟩
      · simp only [h401, if_false]
        exact ⟨[q1], by simp [hm], by simp⟩

/-- C8: if `GetValidAccessToken` fails, `RoundTrip` returns an error wrapping
that failure and no response, and the underlying transport is not invoked;
and after a 401, if the forced refresh fails or the token acquisition that
follows it fails, `RoundTrip` returns an error wrapping that failure and makes
no second send. -/
theorem RoundTrip_fails_without_token (env : Env) (w : World) (req : Request) :
    (∀ w1 e, GetValidAccessToken env w = (w1, .error e) →
      RoundTrip env w req =
        (w1, .error (.wrap "failed to modify request headers"
          (.wrap "failed to get valid access token" e))) ∧
      GoError.Wraps (.wrap "failed to modify request headers"
        (.wrap "failed to get valid access token" e)) e = true ∧
      w1.sends = w.sends) ∧
    (∀ w1 t resp, GetValidAccessToken env w = (w1, .ok t) →
      env.base w1.sends.length (stamped req t) = .ok resp → resp.StatusCode = 401 →
      (∀ w3 e,
        RefreshClaudeSubToken env { w1 with sends := w1.sends ++ [stamped req t] }
          = (w3, some e) →
        RoundTrip env w req =
          (w3, .error (.wrap "authentication failed and token refresh failed" e)) ∧
        w3.sends = w.sends ++ [stamped req t]) ∧
      (∀ w3 w4 e,
        RefreshClaudeSubToken env { w1 with sends := w1.sends ++ [stamped req t] }
          = (w3, none) →
        GetValidAccessToken env w3 = (w4, .error e) →
        RoundTrip env w req =
          (w4, .error (.wrap "failed to modify request headers after refresh"
            (.wrap "failed to get valid access token" e))) ∧
        w4.sends = w.sends ++ [stamped req t])) := by
  constructor
  · intro w1 e htoken
    refine ⟨?_, ?_, ?_⟩
    · unfold RoundTrip
      simp only
      rw [modifyRequestHeaders_error env w w1 req e htoken]
    · simp [GoError.Wraps, GoError.Wraps_self]
    · have h := GetValidAccessToken_sends env w
      rw [htoken] at h
      exact h
  · intro w1 t resp htoken hbase h401
    have hs1 : w1.sends = w.sends := by
      have h := GetValidAccessToken_sends env w
      rw [htoken] at h
      exact h
    constructor
    · intro w3 e hrefresh
      constructor
      · unfold RoundTrip
        simp only
        rw [modifyRequestHeaders_ok env w w1 req t htoken]
        unfold stamped at hbase hrefresh
        simp only [baseRoundTrip, hbase, h401, if_true, hrefresh]
      · have h := RefreshClaudeSubToken_sends env
          { w1 with sends := w1.sends ++ [stamped req t] }
        rw [hrefresh] at h
        simp only at h
        rw [h, hs1]
    · intro w3 w4 e hrefresh htoken2
      constructor
      · unfold RoundTrip
        simp only
        rw [modifyRequestHeaders_ok env w w1 req t htoken]
        unfold stamped at hbase hrefresh
        simp only [baseRoundTrip, hbase, h401, if_true, hrefresh]
        rw [modifyRequestHeaders_error env w3 w4 _ e htoken2]
      · have h := RefreshClaudeSubToken_sends env
          { w1 with sends := w1.sends ++ [stamped req t] }
        rw [hrefresh] at h
        simp only at h
        have h2 := GetValidAccessToken_sends env w3
        rw [htoken2] at h2
        simp only at h2
        rw [h2, h, hs1]

/-- Witness for C8, on the three failure paths: a fresh data directory; a 401
on a credential that has no refresh token; a 401 followed by a granted refresh
whose short-lived, refresh-less credential cannot be renewed at the retry. -/
theorem RoundTrip_fails_without_token_witness :
    (RoundTrip (grantingEnv tickingClock (freshToken 3600) upstreamOk saveWritten)
        { disk := .missing, clockReads := 0, saves := 0, tokenCalls := [], sends := [] }
        apiRequest =
      ({ disk := .missing, clockReads := 0, saves := 0, tokenCalls := [], sends := [] },
        .error (.wrap "failed to modify request headers"
          (.wrap "failed to get valid access token"
            (.errorf "no claudesub credentials found"))))) ∧
    (RoundTrip (grantingEnv tickingClock (freshToken 3600) (upstream401Then 200) saveWritten)
        (worldWith (credsWithoutRefresh 1700000600000)) apiRequest =
      ({ worldWith (credsWithoutRefresh 1700000600000) with
          clockReads := 1, sends := [stamped apiRequest "access-0"] },
        .error (.wrap "authentication failed and token refresh failed"
          (.errorf "no refresh token available")))) ∧
    ((RoundTrip (grantingEnv tickingClock lastToken (upstream401Then 200) saveWritten)
        (worldWith (credsExpiring 1700000600000)) apiRequest).2 =
      .error (.wrap "failed to modify request headers after refresh"
        (.wrap "failed to get valid access token"
          (.wrap "failed to refresh expired token"
            (.errorf "no refresh token available"))))) :=
  ⟨((RoundTrip_fails_without_token
      (grantingEnv tickingClock (freshToken 3600) upstreamOk saveWritten)
      { disk := .missing, clockReads := 0, saves := 0, tokenCalls := [], sends := [] }
      apiRequest).1 _ _ rfl).1,
   (((RoundTrip_fails_without_token
      (grantingEnv tickingClock (freshToken 3600) (upstream401Then 200) saveWritten)
      (worldWith (credsWithoutRefresh 1700000600000)) apiRequest).2
        { worldWith (credsWithoutRefresh 1700000600000) with clockReads := 1 } "access-0"
        { StatusCode := 401, Header := [], Body := "" } rfl rfl rfl).1 _ _ rfl).1,
   congrArg Prod.snd
    ((((RoundTrip_fails_without_token
      (grantingEnv tickingClock lastToken (upstream401Then 200) saveWritten)
      (worldWith (credsExpiring 1700000600000)) apiRequest).2
        { worldWith (credsExpiring 1700000600000) with clockReads := 1 } "access-0"
        { StatusCode := 401, Header := [], Body := "" } rfl rfl rfl).2
        { disk := .doc { ClaudeSub := some (storedCredentials lastToken 1700000061000) }
          clockReads := 2
          saves := 1
          tokenCalls := [refreshGrant "refresh-0"]
          sends := [stamped apiRequest "access-0"] }
        { disk := .doc { ClaudeSub := some (storedCredentials lastToken 1700000061000) }
          clockReads := 3
          saves := 1
          tokenCalls := [refreshGrant "refresh-0"]
          sends := [stamped apiRequest "access-0"] }
        (.wrap "failed to refresh expired token" (.errorf "no refresh token available"))
        (by decide) (by decide)).1)⟩

/-- C9: for every first upstream response whose status is not 401,
`RoundTrip` returns that same response with no error after exactly one
outbound send; the world is the one left by the token acquisition plus that
send, so the forced refresh is not invoked. -/
theorem RoundTrip_passes_other_status (env : Env) (w w1 : World) (req : Request) (t : String)
    (resp : Response)
    (htoken : GetValidAccessToken env w = (w1, .ok t))
    (hbase : env.base w1.sends.length (stamped req t) = .ok resp)
    (hstatus : resp.StatusCode ≠ 401) :
    RoundTrip env w req = ({ w1 with sends := w1.sends ++ [stamped req t] }, .ok resp) ∧
    (RoundTrip env w req).1.sends = w.sends ++ [stamped req t] ∧
    (RoundTrip env w req).1.tokenCalls = w1.tokenCalls ∧
    (RoundTrip env w req).1.disk = w1.disk ∧
    (RoundTrip env w req).1.saves = w1.saves ∧
    (RoundTrip env w req).1.clockReads = w1.clockReads := by
  have hs1 : w1.sends = w.sends := by
    have h := GetValidAccessToken_sends env w
    rw [htoken] at h
    exact h
  have hrt : RoundTrip env w req =
      ({ w1 with sends := w1.sends ++ [stamped req t] }, .ok resp) := by
    unfold RoundTrip
    simp only
    rw [modifyRequestHeaders_ok env w w1 req t htoken]
    unfold stamped at hbase
    simp only [baseRoundTrip, hbase, hstatus, if_false, stamped]
  rw [hrt]
  simp [hs1]

/-- Witness for C9: a valid credential and an upstream answering 500. -/
theorem RoundTrip_passes_other_status_witness :
    RoundTrip (grantingEnv tickingClock (freshToken 3600) upstreamDown saveWritten)
        (worldWith (credsExpiring 1700000600000)) apiRequest =
      ({ worldWith (credsExpiring 1700000600000) with
          clockReads := 1, sends := [] ++ [stamped apiRequest "access-0"] },
        .ok { StatusCode := 500, Header := [], Body := "" }) :=
  (RoundTrip_passes_other_status
    (grantingEnv tickingClock (freshToken 3600) upstreamDown saveWritten)
    (worldWith (credsExpiring 1700000600000))
    { worldWith (credsExpiring 1700000600000) with clockReads := 1 } apiRequest "access-0"
    { StatusCode := 500, Header := [], Body := "" } (by decide) rfl (by decide)).1

/-! ## C10: the header rewriting -/

theorem Header.index_cons (h : Header) (k k1 : String) (v : List String) :
    Header.index ((k1, v) :: h) k = if k = k1 then v else Header.index h k := by
  unfold Header.index
  by_cases hk : k = k1
  · simp [hk, List.lookup]
  · have : (k == k1) = false := by simpa using hk
    simp [hk, List.lookup, this]

theorem Header.index_filter (h : Header) (k k1 : String) :
    Header.index (h.filter (fun kv => kv.1 != k1)) k
      = if k = k1 then [] else Header.index h k := by
  induction h with
  | nil => simp [Header.index]
  | cons kv h ih =>
    obtain ⟨a, v⟩ := kv
    by_cases ha : a = k1
    · subst ha
      simp only [List.filter, bne_self_eq_false]
      rw [ih, Header.index_cons]
      by_cases hk : k = a <;> simp [hk]
    · have hne : (a != k1) = true := by simpa using ha
      simp only [List.filter, hne]
      rw [Header.index_cons, Header.index_cons, ih]
      by_cases hk : k = k1
      · subst hk
        have : ¬ k = a := fun h => ha h.symm
        simp [this]
      · simp [hk]

theorem Header.has_cons (h : Header) (k k1 : String) (v : List String) :
    Header.has ((k1, v) :: h) k = ((k1 == k) || Header.has h k) := by
  simp [Header.has]

theorem Header.has_filter (h : Header) (k k1 : String) :
    Header.has (h.filter (fun kv => kv.1 != k1)) k
      = (decide (k ≠ k1) && Header.has h k) := by
  induction h with
  | nil => simp [Header.has]
  | cons kv h ih =>
    obtain ⟨a, v⟩ := kv
    by_cases ha : a = k1
    · subst ha
      simp only [List.filter, bne_self_eq_false]
      rw [ih, Header.has_cons]
      by_cases hk : k = a
      · subst hk; simp
      · have : ¬ a = k := fun h => hk h.symm
        simp [hk, this]
    · have hne : (a != k1) = true := by simpa using ha
      simp only [List.filter, hne]
      rw [Header.has_cons, Header.has_cons, ih]
      by_cases hk : k = k1
      · subst hk
        simp [ha]
      · simp [hk]

theorem canonical_x_api_key_lower : CanonicalMIMEHeaderKey "x-api-key" = "X-Api-Key" := by
  decide

theorem canonical_x_api_key : CanonicalMIMEHeaderKey "X-Api-Key" = "X-Api-Key" := by decide

theorem canonical_authorization :
    CanonicalMIMEHeaderKey "Authorization" = "Authorization" := by decide

theorem canonical_anthropic_beta :
    CanonicalMIMEHeaderKey "Anthropic-Beta" = "Anthropic-Beta" := by decide

theorem canonical_anthropic_beta_lower :
    CanonicalMIMEHeaderKey "anthropic-beta" = "Anthropic-Beta" := by decide

theorem canonical_user_agent : CanonicalMIMEHeaderKey "User-Agent" = "User-Agent" := by decide

theorem canonical_stainless_os :
    CanonicalMIMEHeaderKey "X-Stainless-Os" = "X-Stainless-Os" := by decide

theorem canonical_stainless_lang :
    CanonicalMIMEHeaderKey "X-Stainless-Lang" = "X-Stainless-Lang" := by decide

theorem canonical_stainless_retry_count :
    CanonicalMIMEHeaderKey "X-Stainless-Retry-Count" = "X-Stainless-Retry-Count" := by decide

theorem canonical_stainless_arch :
    CanonicalMIMEHeaderKey "X-Stainless-Arch" = "X-Stainless-Arch" := by decide

theorem canonical_stainless_runtime :
    CanonicalMIMEHeaderKey "X-Stainless-Runtime" = "X-Stainless-Runtime" := by decide

theorem canonical_stainless_runtime_version :
    CanonicalMIMEHeaderKey "X-Stainless-Runtime-Version" = "X-Stainless-Runtime-Version" := by
  decide

theorem canonical_stainless_package_version :
    CanonicalMIMEHeaderKey "X-Stainless-Package-Version" = "X-Stainless-Package-Version" := by
  decide

/-- What the rewriting leaves in the header map, whatever it held before. -/
theorem rewriteHeaders_spec (h : Header) (t : String) :
    Header.Values (rewriteHeaders h t) "Authorization" = ["Bearer " ++ t] ∧
    Header.Values (rewriteHeaders h t) "anthropic-beta" = [BetaHeaders] ∧
    ∀ k ∈ strippedKeys,
      Header.Values (rewriteHeaders h t) k = [] ∧ Header.has (rewriteHeaders h t) k = false := by
  refine ⟨?_, ?_, ?_⟩
  · simp only [rewriteHeaders, Header.Values, Header.Del, Header.Set, Header.Add,
      canonical_x_api_key_lower, canonical_x_api_key, canonical_authorization,
      canonical_anthropic_beta, canonical_anthropic_beta_lower, canonical_user_agent,
      canonical_stainless_os, canonical_stainless_lang, canonical_stainless_retry_count,
      canonical_stainless_arch, canonical_stainless_runtime,
      canonical_stainless_runtime_version, canonical_stainless_package_version,
      Header.index_filter, Header.index_cons, String.reduceEq, if_true, if_false]
  · simp only [rewriteHeaders, Header.Values, Header.Del, Header.Set, Header.Add,
      canonical_x_api_key_lower, canonical_x_api_key, canonical_authorization,
      canonical_anthropic_beta, canonical_anthropic_beta_lower, canonical_user_agent,
      canonical_stainless_os, canonical_stainless_lang, canonical_stainless_retry_count,
      canonical_stainless_arch, canonical_stainless_runtime,
      canonical_stainless_runtime_version, canonical_stainless_package_version,
      Header.index_filter, Header.index_cons, String.reduceEq, if_true, if_false,
      List.nil_append]
  · intro k hk
    simp only [strippedKeys, List.mem_cons, List.mem_singleton, List.not_mem_nil, or_false] at hk
    rcases hk with rfl | rfl | rfl | rfl | rfl | rfl | rfl | rfl | rfl <;>
      simp only [rewriteHeaders, Header.Values, Header.Del, Header.Set, Header.Add,
        canonical_x_api_key_lower, canonical_x_api_key, canonical_authorization,
        canonical_anthropic_beta, canonical_anthropic_beta_lower, canonical_user_agent,
        canonical_stainless_os, canonical_stainless_lang, canonical_stainless_retry_count,
        canonical_stainless_arch, canonical_stainless_runtime,
        canonical_stainless_runtime_version, canonical_stainless_package_version,
        Header.index_filter, Header.index_cons, Header.has_filter, Header.has_cons,
        String.reduceEq, String.reduceBEq, String.reduceNe, if_true, if_false, ne_eq,
        not_true_eq_false, not_false_eq_true, decide_True, decide_False, Bool.false_and,
        Bool.true_and, Bool.false_or, Bool.or_false, and_self]

theorem Header.index_filter_none (p : String × List String → Bool) (h : Header) (k : String)
    (hp : ∀ v, p (k, v) = false) : Header.index (h.filter p) k = [] := by
  induction h with
  | nil => rfl
  | cons kv h ih =>
    obtain ⟨a, v⟩ := kv
    by_cases hpa : p (a, v) = true
    · have hne : ¬ k = a := by
        intro hk
        rw [← hk, hp v] at hpa
        cases hpa
      rw [List.filter_cons_of_pos hpa, Header.index_cons, if_neg hne]
      exact ih
    · rw [List.filter_cons_of_neg hpa]
      exact ih

theorem rewriteHeaders_closed (h : Header) (t : String) :
    rewriteHeaders h t =
      ("Anthropic-Beta", [BetaHeaders]) :: ("Authorization", ["Bearer " ++ t]) ::
        h.filter (fun kv => !(rewrittenKeys.contains kv.1)) := by
  simp only [rewriteHeaders, Header.Del, Header.Set, Header.Add,
      canonical_x_api_key_lower, canonical_x_api_key, canonical_authorization,
      canonical_anthropic_beta, canonical_anthropic_beta_lower, canonical_user_agent,
      canonical_stainless_os, canonical_stainless_lang, canonical_stainless_retry_count,
      canonical_stainless_arch, canonical_stainless_runtime,
      canonical_stainless_runtime_version, canonical_stainless_package_version,
      Header.index_cons, String.reduceEq, if_true, if_false,
      List.nil_append, List.filter_cons, String.reduceBNe, Bool.true_eq_false,
      Bool.false_eq_true, ite_true, ite_false, List.filter_filter]
  rw [Header.index_filter_none _ _ _ (by intro v; simp)]
  simp only [List.nil_append, List.cons.injEq, true_and]
  apply List.filter_congr
  intro a _
  by_cases h1 : a.1 = "X-Api-Key"
  · simp [h1, rewrittenKeys]
  by_cases h2 : a.1 = "Authorization"
  · simp [h2, rewrittenKeys]
  by_cases h3 : a.1 = "Anthropic-Beta"
  · simp [h3, rewrittenKeys]
  by_cases h4 : a.1 = "User-Agent"
  · simp [h4, rewrittenKeys]
  by_cases h5 : a.1 = "X-Stainless-Os"
  · simp [h5, rewrittenKeys]
  by_cases h6 : a.1 = "X-Stainless-Lang"
  · simp [h6, rewrittenKeys]
  by_cases h7 : a.1 = "X-Stainless-Retry-Count"
  · simp [h7, rewrittenKeys]
  by_cases h8 : a.1 = "X-Stainless-Arch"
  · simp [h8, rewrittenKeys]
  by_cases h9 : a.1 = "X-Stainless-Runtime"
  · simp [h9, rewrittenKeys]
  by_cases h10 : a.1 = "X-Stainless-Runtime-Version"
  · simp [h10, rewrittenKeys]
  by_cases h11 : a.1 = "X-Stainless-Package-Version"
  · simp [h11, rewrittenKeys]
  simp [h1, h2, h3, h4, h5, h6, h7, h8, h9, h10, h11, rewrittenKeys]

theorem strippedKeys_rewritten : ∀ k ∈ strippedKeys, k ∈ rewrittenKeys := by decide

theorem rewrittenKeys_canonical : ∀ k ∈ rewrittenKeys, CanonicalMIMEHeaderKey k = k := by decide

/-- With the rewritten names under canonical keys, the rewritten request carries
the token. -/
theorem rewriteHeaders_carries (req : Request) (t : String)
    (hcanon : rewrittenKeysCanonical req.Header) : carriesToken (stamped req t) t := by
  have hkept : ∀ kv ∈ req.Header.filter (fun kv => !(rewrittenKeys.contains kv.1)),
      CanonicalMIMEHeaderKey kv.1 ∉ rewrittenKeys := by
    intro kv hkv hmem
    rw [List.mem_filter] at hkv
    have h1 := hcanon kv hkv.1 hmem
    rw [h1] at hmem
    have h2 := hkv.2
    simp only [Bool.not_eq_true', List.contains_eq_any_beq, List.any_eq_false, beq_iff_eq] at h2
    exact absurd hmem (by
      intro hm
      exact h2 kv.1 hm rfl)
  unfold carriesToken stamped
  simp only
  rw [rewriteHeaders_closed]
  refine ⟨?_, ?_, ?_⟩
  · have hnil : (req.Header.filter (fun kv => !(rewrittenKeys.contains kv.1))).filter
        (fun kv => CanonicalMIMEHeaderKey kv.1 == "Authorization") = [] := by
      rw [List.filter_eq_nil_iff]
      intro kv hkv h3
      apply hkept kv hkv
      rw [beq_iff_eq] at h3
      rw [h3]
      decide
    simp only [List.filter_cons, canonical_anthropic_beta, canonical_authorization, hnil,
      String.reduceBEq, Bool.false_eq_true, if_false, if_true]
  · have hnil : (req.Header.filter (fun kv => !(rewrittenKeys.contains kv.1))).filter
        (fun kv => CanonicalMIMEHeaderKey kv.1 == "Anthropic-Beta") = [] := by
      rw [List.filter_eq_nil_iff]
      intro kv hkv h3
      apply hkept kv hkv
      rw [beq_iff_eq] at h3
      rw [h3]
      decide
    simp only [List.filter_cons, canonical_anthropic_beta, canonical_authorization, hnil,
      String.reduceBEq, Bool.false_eq_true, if_false, if_true]
  · intro kv hkv
    simp only [List.mem_cons] at hkv
    rcases hkv with rfl | rfl | hkv
    · rw [canonical_anthropic_beta]
      decide
    · rw [canonical_authorization]
      decide
    · intro h3
      exact hkept kv hkv (strippedKeys_rewritten _ h3)

/-- The converse: an entry that goes by a rewritten name and sits under another
key than the canonical one is still in the rewritten request, which then does
not carry the token in the sense of `carriesToken`. -/
theorem rewriteHeaders_carries_only (req : Request) (t : String)
    (hc : carriesToken (stamped req t) t) : rewrittenKeysCanonical req.Header := by
  intro kv hkv hmem
  by_contra hne
  have hnot : kv.1 ∉ rewrittenKeys := by
    intro hin
    exact hne (rewrittenKeys_canonical kv.1 hin)
  have hkept : kv ∈ (stamped req t).Header := by
    unfold stamped
    simp only
    rw [rewriteHeaders_closed]
    refine List.mem_cons_of_mem _ (List.mem_cons_of_mem _ ?_)
    rw [List.mem_filter]
    refine ⟨hkv, ?_⟩
    simp only [Bool.not_eq_true', List.contains_eq_any_beq, List.any_eq_false, beq_iff_eq]
    intro x hx hxe
    exact hnot (hxe ▸ hx)
  obtain ⟨hauth, hbeta, hstrip⟩ := hc
  have hcases : CanonicalMIMEHeaderKey kv.1 = "Authorization" ∨
      CanonicalMIMEHeaderKey kv.1 = "Anthropic-Beta" ∨
      CanonicalMIMEHeaderKey kv.1 ∈ strippedKeys := by
    revert hmem
    generalize CanonicalMIMEHeaderKey kv.1 = c
    simp only [rewrittenKeys, strippedKeys, List.mem_cons, List.mem_singleton,
      List.not_mem_nil, or_false]
    intro h
    rcases h with h | h | h | h | h | h | h | h | h | h | h <;> simp [h]
  rcases hcases with h | h | h
  · have hin : kv ∈ (stamped req t).Header.filter
        (fun kv => CanonicalMIMEHeaderKey kv.1 == "Authorization") := by
      rw [List.mem_filter]
      exact ⟨hkept, by rw [h]; rfl⟩
    rw [hauth, List.mem_singleton] at hin
    apply hne
    rw [hin]
    exact canonical_authorization
  · have hin : kv ∈ (stamped req t).Header.filter
        (fun kv => CanonicalMIMEHeaderKey kv.1 == "Anthropic-Beta") := by
      rw [List.mem_filter]
      exact ⟨hkept, by rw [h]; rfl⟩
    rw [hbeta, List.mem_singleton] at hin
    apply hne
    rw [hin]
    exact canonical_anthropic_beta
  · exact hstrip kv hkept h

/-- The requests `RoundTrip` hands to the transport once the first token is
there: the stamped request alone, or the stamped request and the stamped
retry clone, each with the token of its own `GetValidAccessToken` call. -/
theorem RoundTrip_sends_shape (env : Env) (w w1 : World) (req : Request) (t : String)
    (hG : GetValidAccessToken env w = (w1, .ok t)) :
    (RoundTrip env w req).1.sends = w.sends ++ [stamped req t] ∨
    ∃ w3 w4 t2,
      RefreshClaudeSubToken env { w1 with sends := w1.sends ++ [stamped req t] } = (w3, none) ∧
      GetValidAccessToken env w3 = (w4, .ok t2) ∧
      (RoundTrip env w req).1.sends =
        w.sends ++ [stamped req t, stamped (retryClone env w1.sends.length req t) t2] := by
  have hs1 : w1.sends = w.sends := by
    have h := GetValidAccessToken_sends env w
    rw [hG] at h
    exact h
  have hunf : RoundTrip env w req =
      match baseRoundTrip env w1 (stamped req t) with
      | (w2, .error err) => (w2, .error err)
      | (w2, .ok resp) =>
        if resp.StatusCode = 401 then
          match RefreshClaudeSubToken env w2 with
          | (w3, some refreshErr) =>
            (w3, .error (.wrap "authentication failed and token refresh failed" refreshErr))
          | (w3, none) =>
            match modifyRequestHeaders env w3 (retryClone env w1.sends.length req t) with
            | (w4, .error err) =>
              (w4, .error (.wrap "failed to modify request headers after refresh" err))
            | (w4, .ok clonedReq3) =>
              match baseRoundTrip env w4 clonedReq3 with
              | (w5, .error err) => (w5, .error err)
              | (w5, .ok resp2) => (w5, .ok resp2)
        else (w2, .ok resp) := by
    unfold RoundTrip
    simp only
    rw [modifyRequestHeaders_ok env w w1 req t hG]
    rfl
  rw [hunf]
  simp only [baseRoundTrip]
  cases hB : env.base w1.sends.length (stamped req t) with
  | error e =>
    left
    simp only [hs1]
  | ok resp =>
    simp only
    by_cases h401 : resp.StatusCode = 401
    · simp only [h401, if_true]
      have hr := RefreshClaudeSubToken_sends env
        { w1 with sends := w1.sends ++ [stamped req t] }
      rcases hR : RefreshClaudeSubToken env { w1 with sends := w1.sends ++ [stamped req t] }
        with ⟨w3, _ | e⟩
      · rw [hR] at hr
        simp only at hr ⊢
        have hg2 := GetValidAccessToken_sends env w3
        rcases hG2 : GetValidAccessToken env w3 with ⟨w4, e | t2⟩
        · rw [hG2] at hg2
          simp only at hg2
          left
          rw [modifyRequestHeaders_error env w3 w4 _ e hG2]
          simp only
          rw [hg2, hr, hs1]
        · rw [hG2] at hg2
          simp only at hg2
          right
          refine ⟨w3, w4, t2, rfl, hG2, ?_⟩
          rw [modifyRequestHeaders_ok env w3 w4 _ t2 hG2]
          have hsends : w4.sends ++ [stamped (retryClone env w1.sends.length req t) t2] =
              w.sends ++ [stamped req t, stamped (retryClone env w1.sends.length req t) t2] := by
            rw [hg2, hr, hs1]
            simp
          simp only
          split
          · next heq =>
            simp only [Prod.mk.injEq] at heq
            rw [← heq.1]
            exact hsends
          · next heq =>
            simp only [Prod.mk.injEq] at heq
            rw [← heq.1]
            exact hsends
      · rw [hR] at hr
        simp only at hr ⊢
        left
        rw [hr, hs1]
    · simp only [h401, if_false]
      left
      rw [hs1]

/-- C10 (amended): for every request whose header map holds the entries that
go by one of the eleven rewritten names (`X-Api-Key`, `Authorization`,
`anthropic-beta`, `User-Agent`, `X-Stainless-*`) under their canonical keys,
every request that `RoundTrip` hands to the underlying transport carries the token `t` that the `GetValidAccessToken` call made for
that very send returned (the call on the initial world for the first send, the
call after the forced refresh for the retry): its one `Authorization` entry is
`"Bearer " ++ t`, its one `anthropic-beta` entry is `BetaHeaders`, and it has
no entry named `X-Api-Key`, `User-Agent`, `X-Stainless-Os`,
`X-Stainless-Lang`, `X-Stainless-Retry-Count`, `X-Stainless-Arch`,
`X-Stainless-Runtime`, `X-Stainless-Runtime-Version` or
`X-Stainless-Package-Version`, in any letter case.  Nothing is sent when the
first token cannot be had; the retry is the clone of the request with the body
stream as the first send left it. -/
theorem RoundTrip_sends_rewritten_headers (env : Env) (w : World) (req : Request)
    (hcanon : rewrittenKeysCanonical req.Header) :
    (∃ w1 e, GetValidAccessToken env w = (w1, .error e) ∧
      (RoundTrip env w req).1.sends = w.sends) ∨
    ∃ w1 t, GetValidAccessToken env w = (w1, .ok t) ∧
      carriesToken (stamped req t) t ∧
      ((RoundTrip env w req).1.sends = w.sends ++ [stamped req t] ∨
       ∃ w3 w4 t2,
         RefreshClaudeSubToken env { w1 with sends := w1.sends ++ [stamped req t] }
           = (w3, none) ∧
         GetValidAccessToken env w3 = (w4, .ok t2) ∧
         carriesToken (stamped (retryClone env w1.sends.length req t) t2) t2 ∧
         (RoundTrip env w req).1.sends =
           w.sends ++ [stamped req t, stamped (retryClone env w1.sends.length req t) t2]) := by
  rcases hG : GetValidAccessToken env w with ⟨w1, e | t⟩
  · left
    refine ⟨w1, e, rfl, ?_⟩
    have h := GetValidAccessToken_sends env w
    rw [hG] at h
    unfold RoundTrip
    simp only
    rw [modifyRequestHeaders_error env w w1 req e hG]
    exact h
  · right
    refine ⟨w1, t, rfl, rewriteHeaders_carries req t hcanon, ?_⟩
    rcases RoundTrip_sends_shape env w w1 req t hG with h | ⟨w3, w4, t2, h1, h2, h3⟩
    · exact Or.inl h
    · exact Or.inr ⟨w3, w4, t2, h1, h2,
        rewriteHeaders_carries (retryClone env w1.sends.length req t) t2 hcanon, h3⟩

/-- Witness for C10: the request of the SDK, its keys canonical, through a 401
and a retry. -/
theorem RoundTrip_sends_rewritten_headers_witness :
    (∃ w1 e, GetValidAccessToken
        (grantingEnv tickingClock (freshToken 3600) (upstream401Then 200) saveWritten)
        (worldWith (credsExpiring 1700000600000)) = (w1, .error e) ∧
      (RoundTrip (grantingEnv tickingClock (freshToken 3600) (upstream401Then 200) saveWritten)
        (worldWith (credsExpiring 1700000600000)) apiRequest).1.sends =
        (worldWith (credsExpiring 1700000600000)).sends) ∨
    ∃ w1 t, GetValidAccessToken
        (grantingEnv tickingClock (freshToken 3600) (upstream401Then 200) saveWritten)
        (worldWith (credsExpiring 1700000600000)) = (w1, .ok t) ∧
      carriesToken (stamped apiRequest t) t ∧
      ((RoundTrip (grantingEnv tickingClock (freshToken 3600) (upstream401Then 200) saveWritten)
          (worldWith (credsExpiring 1700000600000)) apiRequest).1.sends =
          (worldWith (credsExpiring 1700000600000)).sends ++ [stamped apiRequest t] ∨
       ∃ w3 w4 t2,
         RefreshClaudeSubToken
           (grantingEnv tickingClock (freshToken 3600) (upstream401Then 200) saveWritten)
           { w1 with sends := w1.sends ++ [stamped apiRequest t] } = (w3, none) ∧
         GetValidAccessToken
           (grantingEnv tickingClock (freshToken 3600) (upstream401Then 200) saveWritten) w3
           = (w4, .ok t2) ∧
         carriesToken (stamped (retryClone
           (grantingEnv tickingClock (freshToken 3600) (upstream401Then 200) saveWritten)
           w1.sends.length apiRequest t) t2) t2 ∧
         (RoundTrip (grantingEnv tickingClock (freshToken 3600) (upstream401Then 200) saveWritten)
           (worldWith (credsExpiring 1700000600000)) apiRequest).1.sends =
           (worldWith (credsExpiring 1700000600000)).sends ++ [stamped apiRequest t,
             stamped (retryClone
               (grantingEnv tickingClock (freshToken 3600) (upstream401Then 200) saveWritten)
               w1.sends.length apiRequest t) t2]) :=
  RoundTrip_sends_rewritten_headers
    (grantingEnv tickingClock (freshToken 3600) (upstream401Then 200) saveWritten)
    (worldWith (credsExpiring 1700000600000)) apiRequest (by decide)

/-- Counterexample to C10 as stated: a request carrying `x-api-key` and
`user-agent` under lower-case keys of its header map.  `Header.Del` looks
under the canonical keys only, so the request handed to the transport still
carries both entries, next to the new `Authorization` and `Anthropic-Beta`. -/
theorem RoundTrip_keeps_raw_header_keys :
    (RoundTrip (grantingEnv tickingClock (freshToken 3600) upstreamOk saveWritten)
        (worldWith (credsExpiring 1700000600000)) rawRequest).1.sends =
      [{ rawRequest with
          Header := [("Anthropic-Beta", [BetaHeaders]), ("Authorization", ["Bearer access-0"]),
            ("x-api-key", ["sk-static"]), ("user-agent", ["sdk/1.0"])] }] ∧
    CanonicalMIMEHeaderKey "x-api-key" = "X-Api-Key" ∧
    CanonicalMIMEHeaderKey "user-agent" = "User-Agent" := by
  refine ⟨?_, ?_, ?_⟩ <;> decide

/-! ## `strings.Split` -/

theorem splitChars_ne_nil (sep : Char) (l : List Char) : splitChars sep l ≠ [] := by
  cases l with
  | nil => simp [splitChars]
  | cons c cs =>
    unfold splitChars
    split
    · simp
    · split <;> simp

theorem splitChars_cons_of_ne (sep c : Char) (cs p : List Char) (ps : List (List Char))
    (hc : ¬ c = sep) (hs : splitChars sep cs = p :: ps) :
    splitChars sep (c :: cs) = (c :: p) :: ps := by
  rw [splitChars]
  simp only [hc, if_false, hs]

theorem splitChars_length (sep : Char) (l : List Char) :
    (splitChars sep l).length = l.count sep + 1 := by
  induction l with
  | nil => simp [splitChars]
  | cons c cs ih =>
    unfold splitChars
    by_cases h : c = sep
    · subst h
      simp [ih]
    · have hne : ¬ (c == sep) = true := by simpa using h
      simp only [h, if_false]
      cases hs : splitChars sep cs with
      | nil => exact absurd hs (splitChars_ne_nil sep cs)
      | cons p ps =>
        rw [hs] at ih
        simp only [List.length_cons] at ih ⊢
        rw [List.count_cons, ih]
        simp [hne]

theorem splitChars_not_mem (sep : Char) (l : List Char) (h : sep ∉ l) :
    splitChars sep l = [l] := by
  induction l with
  | nil => simp [splitChars]
  | cons c cs ih =>
    have hc : ¬ c = sep := fun e => h (by simp [e])
    have hcs : sep ∉ cs := fun e => h (by simp [e])
    unfold splitChars
    simp [hc, ih hcs]

theorem splitChars_append (sep : Char) (a b : List Char) (h : sep ∉ a) :
    splitChars sep (a ++ sep :: b) = a :: splitChars sep b := by
  induction a with
  | nil => simp [splitChars]
  | cons c cs ih =>
    have hc : ¬ c = sep := fun e => h (by simp [e])
    have hcs : sep ∉ cs := fun e => h (by simp [e])
    rw [List.cons_append]
    exact splitChars_cons_of_ne sep c _ _ _ hc (ih hcs)

theorem Split_length (s : String) (sep : Char) :
    (Split s sep).length = s.data.count sep + 1 := by
  simp [Split, splitChars_length]

theorem Split_code_state (code state : String) (hcode : '#' ∉ code.data)
    (hstate : '#' ∉ state.data) :
    Split (code ++ "#" ++ state) '#' = [code, state] := by
  unfold Split
  have hd : (code ++ "#" ++ state).data = code.data ++ '#' :: state.data := by
    simp [String.data_append]
  rw [hd, splitChars_append '#' _ _ hcode, splitChars_not_mem '#' _ hstate]
  rfl

/-! ## C11, C12, C14: `ExchangeCodeForTokens` before any network call -/

theorem ExchangeCodeForTokens_bad_format (env : Env) (w : World) (o : OAuthFlow)
    (pkce : PKCEChallenge) (input : String)
    (hpkce : o.pkce = some pkce) (hparts : (Split input '#').length ≠ 2) :
    ExchangeCodeForTokens env w o input = (w, .error (formatError input)) := by
  simp [ExchangeCodeForTokens, hpkce, hparts, formatError]

theorem ExchangeCodeForTokens_two_parts (env : Env) (w : World) (o : OAuthFlow)
    (pkce : PKCEChallenge) (code state : String)
    (hpkce : o.pkce = some pkce) (hcode : '#' ∉ code.data) (hstate : '#' ∉ state.data)
    (hne : state ≠ pkce.Verifier) :
    ExchangeCodeForTokens env w o (code ++ "#" ++ state) = (w, .error stateMismatchError) := by
  simp [ExchangeCodeForTokens, hpkce, Split_code_state code state hcode hstate, hne,
    stateMismatchError]

/-- C11: on a flow holding a verifier `v`, for every input `code#state` with
exactly one `#` and `state ≠ v`, `ExchangeCodeForTokens` fails with the
state-mismatch error and the world is unchanged: no request reaches the token
endpoint. -/
theorem ExchangeCodeForTokens_state_mismatch (env : Env) (w : World) (o : OAuthFlow)
    (pkce : PKCEChallenge) (code state : String)
    (hpkce : o.pkce = some pkce) (hcode : '#' ∉ code.data) (hstate : '#' ∉ state.data)
    (hne : state ≠ pkce.Verifier) :
    ExchangeCodeForTokens env w o (code ++ "#" ++ state) =
      (w, .error (.errorf "state mismatch - possible CSRF attack")) ∧
    (ExchangeCodeForTokens env w o (code ++ "#" ++ state)).1.tokenCalls = w.tokenCalls := by
  rw [ExchangeCodeForTokens_two_parts env w o pkce code state hpkce hcode hstate hne]
  exact ⟨rfl, rfl⟩

/-- Witness for C11: the state `wrong` against the verifier `verifier-0`, with
a token endpoint that would grant the request. -/
theorem ExchangeCodeForTokens_state_mismatch_witness :
    ExchangeCodeForTokens (grantingEnv tickingClock (freshToken 3600) upstreamOk saveWritten)
        freshWorld (flowWith "verifier-0") ("code-0" ++ "#" ++ "wrong") =
      (freshWorld, .error (.errorf "state mismatch - possible CSRF attack")) :=
  (ExchangeCodeForTokens_state_mismatch
    (grantingEnv tickingClock (freshToken 3600) upstreamOk saveWritten) freshWorld
    (flowWith "verifier-0") { Verifier := "verifier-0", Challenge := "challenge", Method := "S256" }
    "code-0" "wrong" rfl (by decide) (by decide) (by decide)).1

/-- C12: on a flow holding a verifier, for every input that does not contain
exactly one `#` (none, or two or more), `ExchangeCodeForTokens` fails with the
format error, which quotes the input, and the world is unchanged: no request
reaches the token endpoint. -/
theorem ExchangeCodeForTokens_not_one_separator (env : Env) (w : World) (o : OAuthFlow)
    (pkce : PKCEChallenge) (input : String)
    (hpkce : o.pkce = some pkce) (hcount : input.data.count '#' ≠ 1) :
    ExchangeCodeForTokens env w o input =
      (w, .error (.errorf
        ("invalid code format - expected \x27code#state\x27, got: " ++ input))) ∧
    (ExchangeCodeForTokens env w o input).1.tokenCalls = w.tokenCalls := by
  have hparts : (Split input '#').length ≠ 2 := by
    rw [Split_length]
    omega
  rw [ExchangeCodeForTokens_bad_format env w o pkce input hpkce hparts]
  exact ⟨rfl, rfl⟩

/-- Witness for C12: an input with two separators, the second part being the
verifier. -/
theorem ExchangeCodeForTokens_not_one_separator_witness :
    ExchangeCodeForTokens (grantingEnv tickingClock (freshToken 3600) upstreamOk saveWritten)
        freshWorld (flowWith "verifier-0") "code-0#verifier-0#x" =
      (freshWorld, .error (.errorf
        ("invalid code format - expected \x27code#state\x27, got: " ++ "code-0#verifier-0#x"))) :=
  (ExchangeCodeForTokens_not_one_separator
    (grantingEnv tickingClock (freshToken 3600) upstreamOk saveWritten) freshWorld
    (flowWith "verifier-0") { Verifier := "verifier-0", Challenge := "challenge", Method := "S256" }
    "code-0#verifier-0#x" rfl (by decide)).1

theorem GenerateAuthURL_error_keeps_flow (c : Crypto) (o : OAuthFlow) (e : GoError)
    (h : (GenerateAuthURL c o).2 = .error e) : (GenerateAuthURL c o).1 = o := by
  unfold GenerateAuthURL at h ⊢
  cases hg : GeneratePKCEChallenge c with
  | error err => rfl
  | ok pkce =>
    rw [hg] at h
    simp at h

/-- C14: on a flow without a stored challenge, `ExchangeCodeForTokens` fails
with the "not initialized" error for every input and the world is unchanged;
a new flow has no challenge, and a `GenerateAuthURL` that fails leaves the
flow as it was, so this is every flow on which `GenerateAuthURL` has never
succeeded. -/
theorem ExchangeCodeForTokens_not_initialized (env : Env) (w : World) (o : OAuthFlow)
    (input : String) (hpkce : o.pkce = none) :
    ExchangeCodeForTokens env w o input =
      (w, .error (.errorf "PKCE challenge not initialized - call GenerateAuthURL first")) ∧
    (ExchangeCodeForTokens env w o input).1.tokenCalls = w.tokenCalls ∧
    NewOAuthFlow.pkce = none ∧
    (∀ c e, (GenerateAuthURL c o).2 = .error e → (GenerateAuthURL c o).1.pkce = none) := by
  refine ⟨?_, ?_, rfl, ?_⟩
  · simp [ExchangeCodeForTokens, hpkce]
  · simp [ExchangeCodeForTokens, hpkce]
  · intro c e h
    rw [GenerateAuthURL_error_keeps_flow c o e h]
    exact hpkce

/-- Witness for C14: a new flow whose one `GenerateAuthURL` failed for lack of
entropy, and a well-formed input. -/
theorem ExchangeCodeForTokens_not_initialized_witness :
    ExchangeCodeForTokens (grantingEnv tickingClock (freshToken 3600) upstreamOk saveWritten)
        freshWorld (GenerateAuthURL brokenCrypto NewOAuthFlow).1 "code-0#verifier-0" =
      (freshWorld,
        .error (.errorf "PKCE challenge not initialized - call GenerateAuthURL first")) :=
  (ExchangeCodeForTokens_not_initialized
    (grantingEnv tickingClock (freshToken 3600) upstreamOk saveWritten) freshWorld
    (GenerateAuthURL brokenCrypto NewOAuthFlow).1 "code-0#verifier-0" rfl).1

/-! ## C16: the verifier -/

theorem charset_getD_mem (k : Nat) (hk : k < 66) : charset.data.getD k 'A' ∈ charset.data := by
  have hlen : k < charset.data.length := by
    have : charset.data.length = 66 := by decide
    omega
  rw [List.getD_eq_getElem?_getD, List.getElem?_eq_getElem hlen]
  exact List.getElem_mem hlen

theorem charset_getElem? (k : Nat) (hk : k < 66) :
    charset.data[k]? = some (charset.data.getD k 'A') := by
  have hlen : k < charset.data.length := by
    have : charset.data.length = 66 := by decide
    omega
  rw [List.getD_eq_getElem?_getD, List.getElem?_eq_getElem hlen]
  rfl

theorem charset_unreserved : ∀ ch ∈ charset.data, isUnreserved ch = true := by decide

theorem charset_no_separator : '#' ∉ charset.data := by decide

theorem randRead_full (c : Crypto) (b : List Nat) (hrand : c.random = .ok b)
    (hbyte : ∀ x ∈ b, x < 256) : randRead c b.length = .ok b := by
  unfold randRead
  rw [hrand]
  simp only [Except.ok.injEq]
  apply List.ext_getElem?
  intro i
  by_cases hi : i < b.length
  · rw [List.getElem?_map, List.getElem?_range hi, List.getElem?_eq_getElem hi]
    simp only [Option.map_some']
    rw [List.getD_eq_getElem?_getD, List.getElem?_eq_getElem hi]
    simp only [Option.getD_some]
    rw [Nat.mod_eq_of_lt (hbyte _ (List.getElem_mem hi))]
  · have h1 : b.length ≤ i := by omega
    rw [List.getElem?_eq_none h1, List.getElem?_eq_none (by simpa using h1)]

theorem generateCodeVerifier_eq (c : Crypto) (b : List Nat) (hrand : c.random = .ok b)
    (hbyte : ∀ x ∈ b, x < 256) : generateCodeVerifier c b.length = .ok (verifierOf b) := by
  unfold generateCodeVerifier
  rw [randRead_full c b hrand hbyte]
  have hlen : charset.length % 256 = 66 := by decide
  simp only [hlen, verifierOf]

theorem verifierOf_mem_charset (b : List Nat) : ∀ ch ∈ (verifierOf b).data, ch ∈ charset.data := by
  intro ch hch
  simp only [verifierOf, List.mem_map] at hch
  obtain ⟨x, _, rfl⟩ := hch
  exact charset_getD_mem _ (Nat.mod_lt _ (by decide))

theorem verifierOf_length (b : List Nat) : (verifierOf b).length = b.length := by
  show (List.map _ b).length = b.length
  exact List.length_map _ _

theorem GeneratePKCEChallenge_eq (c : Crypto) (b : List Nat) (hrand : c.random = .ok b)
    (hlen : b.length = 64) (hbyte : ∀ x ∈ b, x < 256) :
    GeneratePKCEChallenge c =
      .ok { Verifier := verifierOf b, Challenge := createCodeChallenge c (verifierOf b),
            Method := "S256" } := by
  unfold GeneratePKCEChallenge
  rw [← hlen, generateCodeVerifier_eq c b hrand hbyte]

/-- C16: for every 64-byte output `b` of the random source,
`GeneratePKCEChallenge` succeeds with a verifier of exactly 64 characters
(within 43..128), whose `i`-th character is `charset[b_i mod 66]`, and whose
characters all lie in `A-Z`, `a-z`, `0-9`, `-`, `.`, `_`, `~`. -/
theorem GeneratePKCEChallenge_verifier (c : Crypto) (b : List Nat)
    (hrand : c.random = .ok b) (hlen : b.length = 64) (hbyte : ∀ x ∈ b, x < 256) :
    ∃ p, GeneratePKCEChallenge c = .ok p ∧
      p.Verifier.length = 64 ∧ 43 ≤ p.Verifier.length ∧ p.Verifier.length ≤ 128 ∧
      (∀ i x : Nat, b[i]? = some x → p.Verifier.data[i]? = charset.data[x % 66]?) ∧
      (∀ ch ∈ p.Verifier.data, isUnreserved ch = true) := by
  refine ⟨_, GeneratePKCEChallenge_eq c b hrand hlen hbyte, ?_, ?_, ?_, ?_, ?_⟩
  · rw [verifierOf_length, hlen]
  · rw [verifierOf_length, hlen]
    decide
  · rw [verifierOf_length, hlen]
    decide
  · intro i x hx
    simp only [verifierOf, List.getElem?_map, hx, Option.map_some']
    rw [charset_getElem? _ (Nat.mod_lt _ (by decide))]
  · intro ch hch
    exact charset_unreserved ch (verifierOf_mem_charset b ch hch)

/-- Witness for C16: the verifier made of the bytes `11, 48, 85, ...`. -/
theorem GeneratePKCEChallenge_verifier_witness :
    ∃ p, GeneratePKCEChallenge sampleCrypto = .ok p ∧
      p.Verifier.length = 64 ∧ 43 ≤ p.Verifier.length ∧ p.Verifier.length ≤ 128 ∧
      (∀ i x : Nat, ((List.range 64).map (fun i => (i * 37 + 11) % 256))[i]? = some x →
        p.Verifier.data[i]? = charset.data[x % 66]?) ∧
      (∀ ch ∈ p.Verifier.data, isUnreserved ch = true) :=
  GeneratePKCEChallenge_verifier sampleCrypto
    ((List.range 64).map (fun i => (i * 37 + 11) % 256)) rfl (by decide) (by decide)

/-! ## C13: what `ExchangeCodeForTokens` does with empty parts -/

theorem randRead_ok (c : Crypto) (n : Nat) (buf : List Nat) (h : randRead c n = .ok buf) :
    buf.length = n ∧ ∀ x ∈ buf, x < 256 := by
  unfold randRead at h
  cases hr : c.random with
  | error e =>
    rw [hr] at h
    cases h
  | ok bytes =>
    rw [hr] at h
    simp only [Except.ok.injEq] at h
    subst h
    constructor
    · simp
    · intro x hx
      simp only [List.mem_map] at hx
      obtain ⟨i, _, rfl⟩ := hx
      exact Nat.mod_lt _ (by decide)

theorem GenerateAuthURL_ok (c : Crypto) (o o1 : OAuthFlow) (url : String)
    (h : GenerateAuthURL c o = (o1, .ok url)) :
    ∃ buf, randRead c 64 = .ok buf ∧ buf.length = 64 ∧ (∀ x ∈ buf, x < 256) ∧
      o1.pkce = some { Verifier := verifierOf buf,
                       Challenge := createCodeChallenge c (verifierOf buf), Method := "S256" } ∧
      url = AuthURL ++ "?" ++ Values.Encode (authParams
        { Verifier := verifierOf buf, Challenge := createCodeChallenge c (verifierOf buf),
          Method := "S256" }) := by
  unfold GenerateAuthURL GeneratePKCEChallenge generateCodeVerifier at h
  cases hr : randRead c 64 with
  | error e =>
    rw [hr] at h
    simp at h
  | ok buf =>
    rw [hr] at h
    have hlen : charset.length % 256 = 66 := by decide
    simp only [hlen, Prod.mk.injEq, Except.ok.injEq] at h
    obtain ⟨h1, h2⟩ := h
    obtain ⟨hl, hb⟩ := randRead_ok c 64 buf hr
    refine ⟨buf, rfl, hl, hb, ?_, ?_⟩
    · rw [← h1]
      rfl
    · rw [← h2]
      rfl

/-- C13 (amended): after a successful `GenerateAuthURL`, every input whose
split on `#` does not yield exactly two parts fails with the format error.
Empty parts are not rejected as such: an input `<code>#` with an empty state
fails with the state-mismatch error (the verifier has 64 characters), an input
`#<state>` with an empty code fails with the state-mismatch error when the
state is not the verifier, and `#<verifier>` passes both checks and is posted
to the token endpoint with an empty code. -/
theorem ExchangeCodeForTokens_empty_parts (c : Crypto) (env : Env) (w : World)
    (o0 o : OAuthFlow) (url : String) (hgen : GenerateAuthURL c o0 = (o, .ok url)) :
    ∃ pkce, o.pkce = some pkce ∧
      (∀ input, (Split input '#').length ≠ 2 →
        ExchangeCodeForTokens env w o input = (w, .error (formatError input))) ∧
      (∀ code, '#' ∉ code.data →
        ExchangeCodeForTokens env w o (code ++ "#" ++ "") = (w, .error stateMismatchError)) ∧
      (∀ state, '#' ∉ state.data → state ≠ pkce.Verifier →
        ExchangeCodeForTokens env w o ("" ++ "#" ++ state) = (w, .error stateMismatchError)) ∧
      (ExchangeCodeForTokens env w o ("" ++ "#" ++ pkce.Verifier)).1.tokenCalls =
        w.tokenCalls ++ [codeGrant "" pkce.Verifier pkce.Verifier] := by
  obtain ⟨buf, _, hl, _, hp, _⟩ := GenerateAuthURL_ok c o0 o url hgen
  refine ⟨_, hp, ?_, ?_, ?_, ?_⟩
  · intro input hparts
    exact ExchangeCodeForTokens_bad_format env w o _ input hp hparts
  · intro code hcode
    apply ExchangeCodeForTokens_two_parts env w o _ code "" hp hcode (by simp)
    intro h
    have hlen := verifierOf_length buf
    simp only at h
    rw [← h, hl] at hlen
    simp at hlen
  · intro state hstate hne
    exact ExchangeCodeForTokens_two_parts env w o _ "" state hp (by simp) hstate hne
  · have hsep : '#' ∉ (verifierOf buf).data := fun hmem =>
      charset_no_separator (verifierOf_mem_charset buf _ hmem)
    have hs := Split_code_state "" (verifierOf buf) (by simp) hsep
    unfold ExchangeCodeForTokens
    simp only [hp, hs]
    simp only [List.length_cons, List.length_nil, ne_eq, not_true_eq_false, if_false,
      List.getD_cons_zero, List.getD_cons_succ, codeGrant]
    split <;> try rfl
    split
    · rfl
    · split <;> rfl

/-- Witness for C13: the flow made from `sampleCrypto`. -/
theorem ExchangeCodeForTokens_empty_parts_witness :
    ∃ pkce, sampleFlow.pkce = some pkce ∧
      (∀ input, (Split input '#').length ≠ 2 →
        ExchangeCodeForTokens (offlineEnv 0) freshWorld sampleFlow input =
          (freshWorld, .error (formatError input))) ∧
      (∀ code, '#' ∉ code.data →
        ExchangeCodeForTokens (offlineEnv 0) freshWorld sampleFlow (code ++ "#" ++ "") =
          (freshWorld, .error stateMismatchError)) ∧
      (∀ state, '#' ∉ state.data → state ≠ pkce.Verifier →
        ExchangeCodeForTokens (offlineEnv 0) freshWorld sampleFlow ("" ++ "#" ++ state) =
          (freshWorld, .error stateMismatchError)) ∧
      (ExchangeCodeForTokens (offlineEnv 0) freshWorld sampleFlow
          ("" ++ "#" ++ pkce.Verifier)).1.tokenCalls =
        freshWorld.tokenCalls ++ [codeGrant "" pkce.Verifier pkce.Verifier] :=
  ExchangeCodeForTokens_empty_parts sampleCrypto (offlineEnv 0) freshWorld NewOAuthFlow
    sampleFlow sampleURL rfl

/-- Counterexample to C13 as stated, on the flow made from `sampleCrypto`:
the input `#<verifier>` splits into an empty code and the verifier, yet it is
not rejected: the token request is posted and its reply returned; and the
input `code-0#`, with an empty state, fails with the state-mismatch error,
not the format error. -/
theorem ExchangeCodeForTokens_accepts_empty_code :
    (Split ("#" ++ sampleVerifier) '#' = ["", sampleVerifier] ∧
      ExchangeCodeForTokens (grantingEnv tickingClock (freshToken 3600) upstreamOk saveWritten)
          freshWorld sampleFlow ("#" ++ sampleVerifier) =
        ({ freshWorld with tokenCalls := [codeGrant "" sampleVerifier sampleVerifier] },
          .ok (freshToken 3600))) ∧
    (Split "code-0#" '#' = ["code-0", ""] ∧
      ExchangeCodeForTokens (grantingEnv tickingClock (freshToken 3600) upstreamOk saveWritten)
          freshWorld sampleFlow "code-0#" =
        (freshWorld, .error (.errorf "state mismatch - possible CSRF attack")) ∧
      GoError.errorf "state mismatch - possible CSRF attack" ≠ formatError "code-0#") := by
  refine ⟨⟨?_, ?_⟩, ?_, ?_, ?_⟩ <;> decide

/-! ## C17, C18, C19: store, clear, refresh without a refresh token -/

theorem StoreClaudeSubCredentials_success (env : Env) (w w1 : World) (r : TokenResponse)
    (hstore : StoreClaudeSubCredentials env w r = (w1, none)) :
    w1.disk = .doc { ClaudeSub := some (storedCredentials r (refreshedExpiry env w.clockReads r)) } := by
  unfold StoreClaudeSubCredentials at hstore
  cases hl : LoadAuthData w with
  | error e =>
    rw [hl] at hstore
    simp at hstore
  | ok d =>
    rw [hl] at hstore
    simp only [SaveAuthData] at hstore
    cases hs : env.save w.saves with
    | mkdirFails e =>
      rw [hs] at hstore
      simp at hstore
    | writeFails e after =>
      rw [hs] at hstore
      simp at hstore
    | written =>
      rw [hs] at hstore
      simp only [Prod.mk.injEq, and_true] at hstore
      rw [← hstore]
      rfl

/-- C17 (amended): for every token response with `expires_in = n` seconds,
`-9223372036 ≤ n ≤ 9223372036`, stored at clock reading `t` (Unix ms), a
successful `StoreClaudeSubCredentials` followed by `GetClaudeSubCredentials`
yields a credential with `expires = t + 1000 * n` exactly (`t + 3600000` for
`n = 3600`), type `oauth`, and access, refresh and scope copied from the
response, whatever the document held before. -/
theorem StoreClaudeSubCredentials_then_Get (env : Env) (w w1 : World) (r : TokenResponse)
    (t : Int)
    (hstore : StoreClaudeSubCredentials env w r = (w1, none))
    (ht : UnixMilli (env.now w.clockReads) = t)
    (hlo : -9223372036 ≤ r.ExpiresIn) (hhi : r.ExpiresIn ≤ 9223372036) :
    GetClaudeSubCredentials w1 = .ok
      { Typ := "oauth", Access := r.AccessToken, Refresh := r.RefreshToken,
        Expires := t + 1000 * r.ExpiresIn, Scope := r.Scope } ∧
    (r.ExpiresIn = 3600 → ∃ creds, GetClaudeSubCredentials w1 = .ok creds ∧
      creds.Expires = t + 3600000) := by
  have hd := StoreClaudeSubCredentials_success env w w1 r hstore
  have he : refreshedExpiry env w.clockReads r = t + 1000 * r.ExpiresIn := by
    unfold refreshedExpiry
    rw [durationSeconds_exact hlo hhi, UnixMilli_add_seconds, ht]
  rw [he] at hd
  have hg := GetClaudeSubCredentials_doc w1 _ hd
  refine ⟨by rw [hg]; rfl, ?_⟩
  intro hn
  refine ⟨_, hg, ?_⟩
  simp [storedCredentials, hn]

/-- Witness for C17: one hour granted at 1,700,000,000,000 ms, over an older
credential. -/
theorem StoreClaudeSubCredentials_then_Get_witness :
    GetClaudeSubCredentials
        (StoreClaudeSubCredentials (offlineEnv 1700000000000000000)
          (worldWith (credsExpiring 0)) (freshToken 3600)).1 = .ok
      { Typ := "oauth", Access := "access-1", Refresh := "refresh-1",
        Expires := 1700000000000 + 1000 * 3600, Scope := "user:inference" } :=
  (StoreClaudeSubCredentials_then_Get (offlineEnv 1700000000000000000)
    (worldWith (credsExpiring 0)) _ (freshToken 3600) 1700000000000 rfl (by decide)
    (by decide) (by decide)).1

/-- Counterexample to C17 as stated: with `expires_in = 10^10` the product
with `time.Second` wraps in `int64`; the store succeeds and the stored expiry
is `-6746744073710`, not `t + 1000 * 10^10`. -/
theorem StoreClaudeSubCredentials_expiry_wraps :
    (StoreClaudeSubCredentials (offlineEnv 1700000000000000000) (worldWith (credsExpiring 0))
        (freshToken 10000000000)).2 = none ∧
    GetClaudeSubCredentials
        (StoreClaudeSubCredentials (offlineEnv 1700000000000000000)
          (worldWith (credsExpiring 0)) (freshToken 10000000000)).1 =
      .ok (storedCredentials (freshToken 10000000000) (-6746744073710)) ∧
    (-6746744073710 : Int) ≠
      UnixMilli ((offlineEnv 1700000000000000000).now 0) + 1000 * 10000000000 := by
  refine ⟨?_, ?_, ?_⟩ <;> decide

/-- C18 (amended): for every loadable document state (no file, empty slot, or
a stored credential), if the document write succeeds then
`ClearClaudeSubCredentials` succeeds; afterwards `GetClaudeSubCredentials`
returns the no-credential error and `HasClaudeSubAuth` returns false; and a
second clear, its write succeeding too, succeeds and leaves the document equal
to the result of the first. -/
theorem ClearClaudeSubCredentials_clears (env : Env) (w : World)
    (hload : w.disk = .missing ∨ ∃ d, w.disk = .doc d)
    (hsave : env.save w.saves = .written)
    (hsave2 : env.save (w.saves + 1) = .written) :
    (ClearClaudeSubCredentials env w).2 = none ∧
    (ClearClaudeSubCredentials env w).1.disk = .doc { ClaudeSub := none } ∧
    GetClaudeSubCredentials (ClearClaudeSubCredentials env w).1 =
      .error (.errorf "no claudesub credentials found") ∧
    HasClaudeSubAuth (ClearClaudeSubCredentials env w).1 = false ∧
    (ClearClaudeSubCredentials env (ClearClaudeSubCredentials env w).1).2 = none ∧
    (ClearClaudeSubCredentials env (ClearClaudeSubCredentials env w).1).1.disk =
      (ClearClaudeSubCredentials env w).1.disk := by
  have h1 : ClearClaudeSubCredentials env w =
      ({ w with saves := w.saves + 1, disk := .doc { ClaudeSub := none } }, none) := by
    rcases hload with h | ⟨d, h⟩ <;>
      simp [ClearClaudeSubCredentials, LoadAuthData, SaveAuthData, h, hsave]
  have h2 : ClearClaudeSubCredentials env
      { w with saves := w.saves + 1, disk := .doc { ClaudeSub := none } } =
      ({ w with saves := w.saves + 1 + 1, disk := .doc { ClaudeSub := none } }, none) := by
    simp [ClearClaudeSubCredentials, LoadAuthData, SaveAuthData, hsave2]
  rw [h1]
  simp only [h2]
  simp [GetClaudeSubCredentials, HasClaudeSubAuth, LoadAuthData]

/-- Witness for C18: signing out of a stored credential. -/
theorem ClearClaudeSubCredentials_clears_witness :
    (ClearClaudeSubCredentials (offlineEnv 0) (worldWith (credsExpiring 0))).2 = none ∧
    HasClaudeSubAuth (ClearClaudeSubCredentials (offlineEnv 0) (worldWith (credsExpiring 0))).1
      = false :=
  have h := ClearClaudeSubCredentials_clears (offlineEnv 0) (worldWith (credsExpiring 0))
    (Or.inr ⟨_, rfl⟩) rfl rfl
  ⟨h.1, h.2.2.2.1⟩

/-- Counterexample to C18 as stated: the document holds a credential and loads,
but its directory cannot be written; `ClearClaudeSubCredentials` fails and the
credential is still there. -/
theorem ClearClaudeSubCredentials_fails_on_write :
    ClearClaudeSubCredentials
        (grantingEnv tickingClock (freshToken 3600) upstreamOk saveDenied)
        (worldWith (credsExpiring 0)) =
      ({ worldWith (credsExpiring 0) with saves := 1 },
        some (.wrap "failed to save auth data after clearing credentials"
          (.wrap "failed to create data directory" (.errorf "mkdir: permission denied")))) ∧
    HasClaudeSubAuth (ClearClaudeSubCredentials
        (grantingEnv tickingClock (freshToken 3600) upstreamOk saveDenied)
        (worldWith (credsExpiring 0))).1 = true := by
  constructor <;> decide

/-- C19: for every stored credential whose refresh token is the empty string,
`RefreshClaudeSubToken` fails with the no-refresh-token error and leaves the
world as it was: no token-endpoint call, the document unchanged. -/
theorem RefreshClaudeSubToken_without_refresh_token (env : Env) (w : World)
    (creds : OAuthCredentials)
    (hdisk : w.disk = .doc { ClaudeSub := some creds }) (hempty : creds.Refresh = "") :
    RefreshClaudeSubToken env w = (w, some (.errorf "no refresh token available")) ∧
    (RefreshClaudeSubToken env w).1.tokenCalls = w.tokenCalls ∧
    (RefreshClaudeSubToken env w).1.disk = w.disk := by
  have h : RefreshClaudeSubToken env w = (w, some (.errorf "no refresh token available")) := by
    unfold RefreshClaudeSubToken
    rw [GetClaudeSubCredentials_doc w creds hdisk]
    simp [hempty]
  rw [h]
  exact ⟨rfl, rfl, rfl⟩

/-- Witness for C19: a credential without refresh token against a token
endpoint that grants every request. -/
theorem RefreshClaudeSubToken_without_refresh_token_witness :
    RefreshClaudeSubToken (grantingEnv tickingClock (freshToken 3600) upstreamOk saveWritten)
        (worldWith (credsWithoutRefresh 0)) =
      (worldWith (credsWithoutRefresh 0), some (.errorf "no refresh token available")) :=
  (RefreshClaudeSubToken_without_refresh_token
    (grantingEnv tickingClock (freshToken 3600) upstreamOk saveWritten)
    (worldWith (credsWithoutRefresh 0)) (credsWithoutRefresh 0) rfl rfl).1

/-! ## C20: the reply of the token endpoint -/

theorem RefreshToken_reply (env : Env) (w : World) (refreshToken body : String) (status : Int)
    (hreply : env.token w.tokenCalls.length (refreshGrant refreshToken) = .reply status body) :
    (RefreshToken env w refreshToken).2 =
      if status ≠ 200 then
        .error (.errorf ("token refresh failed with status " ++ toString status ++ ": " ++ body))
      else
        match env.unmarshalToken body with
        | .error err => .error (.wrap "failed to parse refresh response" err)
        | .ok tokenResp => .ok tokenResp := by
  unfold refreshGrant at hreply
  unfold RefreshToken
  simp only [hreply]
  split
  · rfl
  · split <;> rfl

theorem ExchangeCodeForTokens_reply (env : Env) (w : World) (o : OAuthFlow)
    (pkce : PKCEChallenge) (input code body : String) (status : Int)
    (hpkce : o.pkce = some pkce)
    (hparts : Split input '#' = [code, pkce.Verifier])
    (hreply : env.token w.tokenCalls.length (codeGrant code pkce.Verifier pkce.Verifier)
      = .reply status body) :
    (ExchangeCodeForTokens env w o input).2 =
      if status ≠ 200 then
        .error (.errorf ("token exchange failed with status " ++ toString status ++ ": " ++ body))
      else
        match env.unmarshalToken body with
        | .error err => .error (.wrap "failed to parse token response" err)
        | .ok tokenResp => .ok tokenResp := by
  unfold codeGrant at hreply
  unfold ExchangeCodeForTokens
  simp only [hpkce, hparts, List.length_cons, List.length_nil, ne_eq, not_true_eq_false,
    if_false, List.getD_cons_zero, List.getD_cons_succ, hreply]
  split
  · rfl
  · split <;> rfl

/-- C20: for `RefreshToken`, and for `ExchangeCodeForTokens` on an input whose
state is the stored verifier, and for every reply `(status, body)` of the
token endpoint: a `TokenResponse` is returned only if the status is 200 and
the body parses, and it is the parsed body; for a status other than 200 the
call returns an error whose message is the fixed text followed by the decimal
status, `": "` and the raw body; a 200 whose body does not parse is an error
wrapping the decoder's. -/
theorem token_reply_handling (env : Env) (w : World) (o : OAuthFlow) (pkce : PKCEChallenge)
    (refreshToken input code body : String) (status : Int)
    (hpkce : o.pkce = some pkce)
    (hparts : Split input '#' = [code, pkce.Verifier])
    (hexchange : env.token w.tokenCalls.length (codeGrant code pkce.Verifier pkce.Verifier)
      = .reply status body)
    (hrefresh : env.token w.tokenCalls.length (refreshGrant refreshToken)
      = .reply status body) :
    ((∀ r, (RefreshToken env w refreshToken).2 = .ok r →
        status = 200 ∧ env.unmarshalToken body = .ok r) ∧
      (status ≠ 200 → ∃ e, (RefreshToken env w refreshToken).2 = .error e ∧
        e.Error = "token refresh failed with status " ++ toString status ++ ": " ++ body) ∧
      (status = 200 → ∀ err, env.unmarshalToken body = .error err →
        (RefreshToken env w refreshToken).2 =
          .error (.wrap "failed to parse refresh response" err)) ∧
      (status = 200 → ∀ r, env.unmarshalToken body = .ok r →
        (RefreshToken env w refreshToken).2 = .ok r)) ∧
    ((∀ r, (ExchangeCodeForTokens env w o input).2 = .ok r →
        status = 200 ∧ env.unmarshalToken body = .ok r) ∧
      (status ≠ 200 → ∃ e, (ExchangeCodeForTokens env w o input).2 = .error e ∧
        e.Error = "token exchange failed with status " ++ toString status ++ ": " ++ body) ∧
      (status = 200 → ∀ err, env.unmarshalToken body = .error err →
        (ExchangeCodeForTokens env w o input).2 =
          .error (.wrap "failed to parse token response" err)) ∧
      (status = 200 → ∀ r, env.unmarshalToken body = .ok r →
        (ExchangeCodeForTokens env w o input).2 = .ok r)) := by
  rw [RefreshToken_reply env w refreshToken body status hrefresh,
    ExchangeCodeForTokens_reply env w o pkce input code body status hpkce hparts hexchange]
  constructor
  · refine ⟨?_, ?_, ?_, ?_⟩
    · intro r h
      by_cases hs : status = 200
      · refine ⟨hs, ?_⟩
        simp only [hs, ne_eq, not_true_eq_false, if_false] at h
        cases hu : env.unmarshalToken body with
        | error err =>
          rw [hu] at h
          cases h
        | ok r1 =>
          rw [hu] at h
          simp only [Except.ok.injEq] at h
          rw [h]
      · simp [hs] at h
    · intro hs
      rw [if_pos hs]
      exact ⟨_, rfl, rfl⟩
    · intro hs err hu
      simp [hs, hu]
    · intro hs r hu
      simp [hs, hu]
  · refine ⟨?_, ?_, ?_, ?_⟩
    · intro r h
      by_cases hs : status = 200
      · refine ⟨hs, ?_⟩
        simp only [hs, ne_eq, not_true_eq_false, if_false] at h
        cases hu : env.unmarshalToken body with
        | error err =>
          rw [hu] at h
          cases h
        | ok r1 =>
          rw [hu] at h
          simp only [Except.ok.injEq] at h
          rw [h]
      · simp [hs] at h
    · intro hs
      rw [if_pos hs]
      exact ⟨_, rfl, rfl⟩
    · intro hs err hu
      simp [hs, hu]
    · intro hs r hu
      simp [hs, hu]

/-! ## C15: the authorization URL -/

theorem unhex_upperhex : ∀ n, n < 16 → unhex (upperhex n) = some n := by decide

theorem upperhex_digit (n : Nat) (hn : n < 16) :
    upperhex n < 128 ∧ upperhex n ≠ 38 ∧ upperhex n ≠ 61 := by
  unfold upperhex
  split <;> omega

theorem shouldEscape_false (c : Nat) (h : shouldEscape c = false) :
    c < 128 ∧ c ≠ 37 ∧ c ≠ 43 ∧ c ≠ 38 ∧ c ≠ 61 := by
  unfold shouldEscape at h
  simp only [Bool.not_eq_false', Bool.or_eq_true, Bool.and_eq_true, decide_eq_true_eq,
    beq_iff_eq] at h
  omega

theorem unescape_cons_plain (c : Nat) (rest : List Nat) (h37 : c ≠ 37) (h43 : c ≠ 43) :
    unescape (c :: rest) = (unescape rest).map (fun r => c :: r) := by
  rw [unescape]
  · simp [h43]
  all_goals
    intros
    apply h37
    assumption

theorem unescape_escapeByte (c : Nat) (hc : c < 256) (rest : List Nat) :
    unescape (escapeByte c ++ rest) = (unescape rest).map (fun r => c :: r) := by
  unfold escapeByte
  by_cases h32 : c = 32
  · subst h32
    simp [unescape]
  · simp only [h32, if_false]
    cases hs : shouldEscape c with
    | true =>
      simp only [if_true, List.cons_append, List.nil_append]
      rw [unescape, unhex_upperhex _ (by omega), unhex_upperhex _ (Nat.mod_lt _ (by decide))]
      have hdm : 16 * (c / 16) + c % 16 = c := Nat.div_add_mod c 16
      cases unescape rest with
      | none => rfl
      | some r => simp [hdm]
    | false =>
      obtain ⟨_, h37, h43, _, _⟩ := shouldEscape_false c hs
      simp only [Bool.false_eq_true, if_false, List.cons_append, List.nil_append]
      exact unescape_cons_plain c rest h37 h43

theorem unescape_escape (b : List Nat) (hb : ∀ x ∈ b, x < 256) :
    unescape (queryEscapeBytes b) = some b := by
  induction b with
  | nil => rfl
  | cons c cs ih =>
    have hc : c < 256 := hb c (by simp)
    have hcs : ∀ x ∈ cs, x < 256 := fun x hx => hb x (by simp [hx])
    show unescape (escapeByte c ++ queryEscapeBytes cs) = some (c :: cs)
    rw [unescape_escapeByte c hc, ih hcs]
    rfl

theorem escapeByte_plain (c : Nat) (hc : c < 256) :
    ∀ y ∈ escapeByte c, y < 128 ∧ y ≠ 38 ∧ y ≠ 61 := by
  intro y hy
  unfold escapeByte at hy
  by_cases h32 : c = 32
  · simp only [h32, if_true, List.mem_singleton] at hy
    omega
  · simp only [h32, if_false] at hy
    cases hs : shouldEscape c with
    | true =>
      simp only [hs, if_true, List.mem_cons, List.mem_singleton, List.not_mem_nil,
        or_false] at hy
      have h1 := upperhex_digit (c / 16) (by omega)
      have h2 := upperhex_digit (c % 16) (Nat.mod_lt _ (by decide))
      rcases hy with rfl | rfl | rfl
      · omega
      · exact h1
      · exact h2
    | false =>
      simp only [hs, Bool.false_eq_true, if_false, List.mem_singleton] at hy
      obtain ⟨h1, _, _, h4, h5⟩ := shouldEscape_false c hs
      subst hy
      exact ⟨h1, h4, h5⟩

theorem queryEscapeBytes_plain (b : List Nat) (hb : ∀ x ∈ b, x < 256) :
    ∀ y ∈ queryEscapeBytes b, y < 128 ∧ y ≠ 38 ∧ y ≠ 61 := by
  intro y hy
  simp only [queryEscapeBytes, List.mem_flatMap] at hy
  obtain ⟨c, hc, hyc⟩ := hy
  exact escapeByte_plain c (hb c hc) y hyc

theorem cutAt_append (sep : Nat) (a b : List Nat) (h : sep ∉ a) :
    cutAt sep (a ++ sep :: b) = (a, b) := by
  induction a with
  | nil => simp [cutAt]
  | cons c cs ih =>
    have hc : ¬ c = sep := fun e => h (by simp [e])
    have hcs : sep ∉ cs := fun e => h (by simp [e])
    rw [List.cons_append, cutAt]
    simp only [hc, if_false, ih hcs]

/-- One parameter as `Values.Encode` writes it, in bytes. -/
theorem decodePieces_encoded (ps : List (List Nat × List Nat))
    (hps : ∀ p ∈ ps, (∀ x ∈ p.1, x < 256) ∧ ∀ x ∈ p.2, x < 256) :
    decodePieces (ps.map (fun p => queryEscapeBytes p.1 ++ 61 :: queryEscapeBytes p.2))
      = some ps := by
  induction ps with
  | nil => rfl
  | cons p ps ih =>
    obtain ⟨hk, hv⟩ := hps p (by simp)
    have hrest := ih (fun q hq => hps q (by simp [hq]))
    have hsep : 61 ∉ queryEscapeBytes p.1 := fun hmem =>
      (queryEscapeBytes_plain p.1 hk 61 hmem).2.2 rfl
    rw [List.map_cons, decodePieces]
    have hne : ¬ (queryEscapeBytes p.1 ++ 61 :: queryEscapeBytes p.2 = []) := by simp
    simp only [hne, if_false, cutAt_append 61 _ _ hsep, unescape_escape p.1 hk,
      unescape_escape p.2 hv, hrest]

theorem decodeQuery_encoded (query : String) (ps : List (List Nat × List Nat))
    (hne : ps ≠ [])
    (hps : ∀ p ∈ ps, (∀ x ∈ p.1, x < 256) ∧ ∀ x ∈ p.2, x < 256)
    (hq : utf8Bytes query =
      [38].intercalate (ps.map (fun p => queryEscapeBytes p.1 ++ 61 :: queryEscapeBytes p.2))) :
    decodeQuery query = some ps := by
  have hx : ∀ l ∈ ps.map (fun p => queryEscapeBytes p.1 ++ 61 :: queryEscapeBytes p.2),
      38 ∉ l := by
    intro l hl hmem
    simp only [List.mem_map] at hl
    obtain ⟨p, hp, rfl⟩ := hl
    obtain ⟨hk, hv⟩ := hps p hp
    simp only [List.mem_append, List.mem_cons] at hmem
    rcases hmem with h | h | h
    · exact (queryEscapeBytes_plain p.1 hk 38 h).2.1 rfl
    · omega
    · exact (queryEscapeBytes_plain p.2 hv 38 h).2.1 rfl
  have hls : ps.map (fun p => queryEscapeBytes p.1 ++ 61 :: queryEscapeBytes p.2) ≠ [] := by
    simpa using hne
  unfold decodeQuery
  rw [hq, List.splitOn_intercalate _ 38 hx hls]
  exact decodePieces_encoded ps hps

theorem utf8Char_lt (c : Char) : ∀ x ∈ utf8Char c, x < 256 := by
  have hv : c.toNat < 1114112 := by
    have h := c.valid
    simp only [UInt32.isValidChar, Nat.isValidChar] at h
    show c.val.toNat < 1114112
    omega
  intro x hx
  unfold utf8Char at hx
  simp only at hx
  split at hx
  · simp only [List.mem_singleton] at hx
    omega
  · split at hx
    · simp only [List.mem_cons, List.mem_singleton, List.not_mem_nil, or_false] at hx
      omega
    · split at hx
      · simp only [List.mem_cons, List.mem_singleton, List.not_mem_nil, or_false] at hx
        omega
      · simp only [List.mem_cons, List.mem_singleton, List.not_mem_nil, or_false] at hx
        omega

theorem utf8Bytes_lt (s : String) : ∀ x ∈ utf8Bytes s, x < 256 := by
  intro x hx
  simp only [utf8Bytes, List.mem_flatMap] at hx
  obtain ⟨c, _, hc⟩ := hx
  exact utf8Char_lt c x hc

theorem utf8Bytes_append (a b : String) : utf8Bytes (a ++ b) = utf8Bytes a ++ utf8Bytes b := by
  simp [utf8Bytes, String.data_append]

theorem utf8Char_ofNat : ∀ x, x < 128 → utf8Char (Char.ofNat x) = [x] := by decide

theorem utf8Bytes_mk_ascii (l : List Nat) (hl : ∀ x ∈ l, x < 128) :
    utf8Bytes (String.mk (l.map Char.ofNat)) = l := by
  induction l with
  | nil => rfl
  | cons x xs ih =>
    have hx : x < 128 := hl x (by simp)
    have hxs := ih (fun y hy => hl y (by simp [hy]))
    simp only [utf8Bytes, List.map_cons, List.flatMap_cons] at hxs ⊢
    rw [utf8Char_ofNat x hx, hxs]
    rfl

theorem utf8Bytes_QueryEscape (s : String) :
    utf8Bytes (QueryEscape s) = queryEscapeBytes (utf8Bytes s) := by
  unfold QueryEscape
  apply utf8Bytes_mk_ascii
  intro y hy
  exact (queryEscapeBytes_plain _ (utf8Bytes_lt s) y hy).1

theorem Encode_authParams (pkce : PKCEChallenge) :
    Values.Encode (authParams pkce) = "&".intercalate
      [QueryEscape "client_id" ++ "=" ++ QueryEscape ClientID,
       QueryEscape "code" ++ "=" ++ QueryEscape "true",
       QueryEscape "code_challenge" ++ "=" ++ QueryEscape pkce.Challenge,
       QueryEscape "code_challenge_method" ++ "=" ++ QueryEscape pkce.Method,
       QueryEscape "redirect_uri" ++ "=" ++ QueryEscape RedirectURI,
       QueryEscape "response_type" ++ "=" ++ QueryEscape "code",
       QueryEscape "scope" ++ "=" ++ QueryEscape Scope,
       QueryEscape "state" ++ "=" ++ QueryEscape pkce.Verifier] := by
  rfl

theorem utf8Bytes_Encode_authParams (pkce : PKCEChallenge) :
    utf8Bytes (Values.Encode (authParams pkce)) =
      [38].intercalate
        ([param "client_id" ClientID, param "code" "true",
          param "code_challenge" pkce.Challenge, param "code_challenge_method" pkce.Method,
          param "redirect_uri" RedirectURI, param "response_type" "code",
          param "scope" Scope, param "state" pkce.Verifier].map
            (fun p => queryEscapeBytes p.1 ++ 61 :: queryEscapeBytes p.2)) := by
  have hamp : utf8Bytes "&" = [38] := by decide
  have heq : utf8Bytes "=" = [61] := by decide
  rw [Encode_authParams]
  simp only [String.intercalate, String.intercalate.go, utf8Bytes_append,
    utf8Bytes_QueryEscape, hamp, heq, param, List.map_cons, List.map_nil, List.intercalate,
    List.intersperse, List.flatten, List.append_assoc, List.cons_append, List.nil_append,
    List.append_nil]

theorem decodeQuery_authParams (pkce : PKCEChallenge) :
    decodeQuery (Values.Encode (authParams pkce)) = some
      [param "client_id" ClientID, param "code" "true",
       param "code_challenge" pkce.Challenge, param "code_challenge_method" pkce.Method,
       param "redirect_uri" RedirectURI, param "response_type" "code",
       param "scope" Scope, param "state" pkce.Verifier] := by
  apply decodeQuery_encoded _ _ (by simp) _ (utf8Bytes_Encode_authParams pkce)
  intro p hp
  simp only [List.mem_cons, List.mem_singleton, List.not_mem_nil, or_false] at hp
  rcases hp with rfl | rfl | rfl | rfl | rfl | rfl | rfl | rfl <;>
    exact ⟨utf8Bytes_lt _, utf8Bytes_lt _⟩

theorem ExchangeCodeForTokens_posts (env : Env) (w : World) (o : OAuthFlow)
    (pkce : PKCEChallenge) (code : String)
    (hpkce : o.pkce = some pkce) (hcode : '#' ∉ code.data) (hv : '#' ∉ pkce.Verifier.data) :
    (ExchangeCodeForTokens env w o (code ++ "#" ++ pkce.Verifier)).1.tokenCalls =
      w.tokenCalls ++ [codeGrant code pkce.Verifier pkce.Verifier] := by
  have hs := Split_code_state code pkce.Verifier hcode hv
  unfold ExchangeCodeForTokens
  simp only [hpkce, hs]
  simp only [List.length_cons, List.length_nil, ne_eq, not_true_eq_false, if_false,
    List.getD_cons_zero, List.getD_cons_succ, codeGrant]
  split <;> try rfl
  split
  · rfl
  · split <;> rfl

/-- C15: whenever `GenerateAuthURL` succeeds, the returned URL is `AuthURL`,
`?` and a query whose decoded parameters are exactly `client_id = ClientID`,
`code = true`, `code_challenge = base64url_nopad(Sum256(v))`,
`code_challenge_method = S256`, `redirect_uri = RedirectURI`,
`response_type = code`, `scope = Scope` and `state = v`, where `v` is the
verifier stored in the flow: the value `ExchangeCodeForTokens` requires the
state part to equal (any other state is a state mismatch, and the state `v`
lets the request through to the token endpoint). -/
theorem GenerateAuthURL_parameters (c : Crypto) (o o1 : OAuthFlow) (url : String)
    (hgen : GenerateAuthURL c o = (o1, .ok url)) :
    ∃ v query,
      (∃ pkce, o1.pkce = some pkce ∧ pkce.Verifier = v) ∧
      url = AuthURL ++ "?" ++ query ∧
      decodeQuery query = some
        [param "client_id" ClientID, param "code" "true",
         param "code_challenge" (String.mk (base64RawURL (c.Sum256 (utf8Bytes v)))),
         param "code_challenge_method" "S256", param "redirect_uri" RedirectURI,
         param "response_type" "code", param "scope" Scope, param "state" v] ∧
      (∀ env w code state, '#' ∉ code.data → '#' ∉ state.data → state ≠ v →
        ExchangeCodeForTokens env w o1 (code ++ "#" ++ state) =
          (w, .error stateMismatchError)) ∧
      (∀ env w code, '#' ∉ code.data →
        (ExchangeCodeForTokens env w o1 (code ++ "#" ++ v)).1.tokenCalls =
          w.tokenCalls ++ [codeGrant code v v]) := by
  obtain ⟨buf, _, _, _, hp, hurl⟩ := GenerateAuthURL_ok c o o1 url hgen
  refine ⟨verifierOf buf, _, ⟨_, hp, rfl⟩, hurl, ?_, ?_, ?_⟩
  · exact decodeQuery_authParams _
  · intro env w code state hcode hstate hne
    exact ExchangeCodeForTokens_two_parts env w o1 _ code state hp hcode hstate hne
  · intro env w code hcode
    have hsep : '#' ∉ (verifierOf buf).data := fun hmem =>
      charset_no_separator (verifierOf_mem_charset buf _ hmem)
    exact ExchangeCodeForTokens_posts env w o1 _ code hp hcode hsep

/-- Witness for C15: the URL made from `sampleCrypto`. -/
theorem GenerateAuthURL_parameters_witness :
    ∃ v query,
      (∃ pkce, sampleFlow.pkce = some pkce ∧ pkce.Verifier = v) ∧
      sampleURL = AuthURL ++ "?" ++ query ∧
      decodeQuery query = some
        [param "client_id" ClientID, param "code" "true",
         param "code_challenge"
           (String.mk (base64RawURL (sampleCrypto.Sum256 (utf8Bytes v)))),
         param "code_challenge_method" "S256", param "redirect_uri" RedirectURI,
         param "response_type" "code", param "scope" Scope, param "state" v] ∧
      (∀ env w code state, '#' ∉ code.data → '#' ∉ state.data → state ≠ v →
        ExchangeCodeForTokens env w sampleFlow (code ++ "#" ++ state) =
          (w, .error stateMismatchError)) ∧
      (∀ env w code, '#' ∉ code.data →
        (ExchangeCodeForTokens env w sampleFlow (code ++ "#" ++ v)).1.tokenCalls =
          w.tokenCalls ++ [codeGrant code v v]) :=
  GenerateAuthURL_parameters sampleCrypto NewOAuthFlow sampleFlow sampleURL rfl

/-- Witness for C20: a token endpoint answering 429 to both grants. -/
theorem token_reply_handling_witness :
    (∃ e, (RefreshToken (replyingEnv 429 "slow down") freshWorld "refresh-0").2 = .error e ∧
      e.Error = "token refresh failed with status " ++ toString (429 : Int) ++ ": " ++
        "slow down") ∧
    (∃ e, (ExchangeCodeForTokens (replyingEnv 429 "slow down") freshWorld
        (flowWith "verifier-0") "code-0#verifier-0").2 = .error e ∧
      e.Error = "token exchange failed with status " ++ toString (429 : Int) ++ ": " ++
        "slow down") :=
  have h := token_reply_handling (replyingEnv 429 "slow down") freshWorld
    (flowWith "verifier-0") { Verifier := "verifier-0", Challenge := "challenge", Method := "S256" }
    "refresh-0" "code-0#verifier-0" "code-0" "slow down" 429 rfl (by decide) rfl rfl
  ⟨h.1.2.1 (by decide), h.2.2.1 (by decide)⟩

/-! ## C21: a missing file and a corrupt file -/

theorem load_error_message_ne (e : GoError) :
    (GoError.wrap "failed to load auth data" e).Error ≠ noCredentialsError.Error := by
  intro h
  have h1 := congrArg (fun s => s.data.head?) h
  simp [GoError.Error, noCredentialsError, String.data_append] at h1

/-- C21: `LoadAuthData` returns an empty `AuthData` with no error when the auth
file does not exist, and an error, never an `AuthData`, when the file exists
but does not parse; `GetClaudeSubCredentials` returns the no-credential error
exactly when the file is absent or parses with an empty slot, and for a
corrupt file it returns the wrapped load error, which is not the no-credential
error and does not read like it. -/
theorem LoadAuthData_missing_and_corrupt (w : World) :
    (w.disk = .missing → LoadAuthData w = .ok { ClaudeSub := none }) ∧
    (∀ e, w.disk = .corrupt e →
      LoadAuthData w = .error (.wrap "failed to parse auth data" e) ∧
      ∀ d, LoadAuthData w ≠ .ok d) ∧
    (GetClaudeSubCredentials w = .error (.errorf "no claudesub credentials found") ↔
      w.disk = .missing ∨ w.disk = .doc { ClaudeSub := none }) ∧
    (∀ e, w.disk = .corrupt e →
      GetClaudeSubCredentials w =
        .error (.wrap "failed to load auth data" (.wrap "failed to parse auth data" e)) ∧
      GetClaudeSubCredentials w ≠ .error (.errorf "no claudesub credentials found") ∧
      (GoError.wrap "failed to load auth data" (.wrap "failed to parse auth data" e)).Error ≠
        "no claudesub credentials found") := by
  refine ⟨?_, ?_, ?_, ?_⟩
  · intro h
    simp [LoadAuthData, h]
  · intro e h
    simp [LoadAuthData, h]
  · cases hd : w.disk with
    | missing => simp [GetClaudeSubCredentials, LoadAuthData, hd]
    | unreadable e => simp [GetClaudeSubCredentials, LoadAuthData, hd]
    | corrupt e => simp [GetClaudeSubCredentials, LoadAuthData, hd]
    | doc d =>
      obtain ⟨slot⟩ := d
      cases slot with
      | none => simp [GetClaudeSubCredentials, LoadAuthData, hd]
      | some creds => simp [GetClaudeSubCredentials, LoadAuthData, hd]
  · intro e h
    refine ⟨by simp [GetClaudeSubCredentials, LoadAuthData, h],
      by simp [GetClaudeSubCredentials, LoadAuthData, h], ?_⟩
    exact load_error_message_ne _

/-- Witness for C21: an auth file cut off in the middle. -/
theorem LoadAuthData_missing_and_corrupt_witness :
    (LoadAuthData freshWorld = .ok { ClaudeSub := none }) ∧
    (LoadAuthData corruptWorld =
      .error (.wrap "failed to parse auth data" (.errorf "unexpected end of JSON input"))) ∧
    (GetClaudeSubCredentials corruptWorld =
      .error (.wrap "failed to load auth data"
        (.wrap "failed to parse auth data" (.errorf "unexpected end of JSON input")))) :=
  ⟨(LoadAuthData_missing_and_corrupt freshWorld).1 rfl,
   ((LoadAuthData_missing_and_corrupt corruptWorld).2.1 _ rfl).1,
   ((LoadAuthData_missing_and_corrupt corruptWorld).2.2.2 _ rfl).1⟩

/-! ## C23: a refresh that fails -/

theorem RefreshToken_failed (env : Env) (w : World) (refreshToken : String)
    (hfail : isFailedReply env (env.token w.tokenCalls.length (refreshGrant refreshToken))
      = true) :
    ∃ e, RefreshToken env w refreshToken =
      ({ w with tokenCalls := w.tokenCalls ++ [refreshGrant refreshToken] }, .error e) := by
  unfold refreshGrant at hfail ⊢
  unfold RefreshToken
  simp only
  cases hr : env.token w.tokenCalls.length
      [("grant_type", "refresh_token"), ("client_id", ClientID),
        ("refresh_token", refreshToken)] with
  | doError err => exact ⟨_, rfl⟩
  | readError err => exact ⟨_, rfl⟩
  | reply status body =>
    rw [hr] at hfail
    simp only
    by_cases hs : status = 200
    · simp only [hs, ne_eq, not_true_eq_false, if_false]
      cases hu : env.unmarshalToken body with
      | error err => exact ⟨_, rfl⟩
      | ok r => simp [isFailedReply, hs, hu] at hfail
    · simp only [ne_eq, hs, not_false_eq_true, if_true]
      exact ⟨_, rfl⟩

theorem RefreshClaudeSubToken_failed (env : Env) (w : World) (creds : OAuthCredentials)
    (hdisk : w.disk = .doc { ClaudeSub := some creds })
    (hfail : isFailedReply env (env.token w.tokenCalls.length (refreshGrant creds.Refresh))
      = true) :
    ∃ e, (RefreshClaudeSubToken env w).2 = some e ∧
      (RefreshClaudeSubToken env w).1.disk = w.disk ∧
      (RefreshClaudeSubToken env w).1.saves = w.saves := by
  unfold RefreshClaudeSubToken
  rw [GetClaudeSubCredentials_doc w creds hdisk]
  simp only
  by_cases hr : creds.Refresh = ""
  · rw [if_pos hr]
    exact ⟨_, rfl, rfl, rfl⟩
  · rw [if_neg hr]
    obtain ⟨e, he⟩ := RefreshToken_failed env w creds.Refresh hfail
    rw [he]
    exact ⟨_, rfl, rfl, rfl⟩

/-- C23: for every stored credential, if the refresh call fails (the request
cannot be completed, the body cannot be read, the status is not 200, or the
body does not parse), `RefreshClaudeSubToken` returns an error, and so does
`GetValidAccessToken` when the validity check says the credential is not
valid; in both cases the stored document is what it was before the call and
no write of it is attempted. -/
theorem failed_refresh_keeps_document (env : Env) (w : World) (creds : OAuthCredentials)
    (hdisk : w.disk = .doc { ClaudeSub := some creds })
    (hfail : isFailedReply env (env.token w.tokenCalls.length (refreshGrant creds.Refresh))
      = true) :
    (∃ e, (RefreshClaudeSubToken env w).2 = some e ∧
      (RefreshClaudeSubToken env w).1.disk = .doc { ClaudeSub := some creds } ∧
      (RefreshClaudeSubToken env w).1.saves = w.saves) ∧
    ((IsClaudeSubTokenValid env w).2 = .ok false →
      ∃ e, (GetValidAccessToken env w).2 = .error e ∧
        (GetValidAccessToken env w).1.disk = .doc { ClaudeSub := some creds } ∧
        (GetValidAccessToken env w).1.saves = w.saves) := by
  constructor
  · obtain ⟨e, h1, h2, h3⟩ := RefreshClaudeSubToken_failed env w creds hdisk hfail
    exact ⟨e, h1, by rw [h2, hdisk], h3⟩
  · intro hinvalid
    rw [IsClaudeSubTokenValid_eq env w creds hdisk] at hinvalid
    simp only [Except.ok.injEq] at hinvalid
    obtain ⟨e, h1, h2, h3⟩ := RefreshClaudeSubToken_failed env
      { w with clockReads := w.clockReads + 1 } creds hdisk hfail
    unfold GetValidAccessToken
    rw [IsClaudeSubTokenValid_eq env w creds hdisk]
    simp only [hinvalid, Bool.not_false, if_true]
    rcases hR : RefreshClaudeSubToken env { w with clockReads := w.clockReads + 1 }
      with ⟨w2, _ | e2⟩
    · rw [hR] at h1
      cases h1
    · rw [hR] at h2 h3
      simp only at h2 h3
      exact ⟨_, rfl, by rw [← hdisk]; exact h2, h3⟩

/-- Witness for C23: an expired credential and a token endpoint answering 500. -/
theorem failed_refresh_keeps_document_witness :
    (∃ e, (RefreshClaudeSubToken (replyingEnv 500 "upstream down")
        (worldWith (credsExpiring 0))).2 = some e ∧
      (RefreshClaudeSubToken (replyingEnv 500 "upstream down")
        (worldWith (credsExpiring 0))).1.disk = .doc { ClaudeSub := some (credsExpiring 0) } ∧
      (RefreshClaudeSubToken (replyingEnv 500 "upstream down")
        (worldWith (credsExpiring 0))).1.saves = (worldWith (credsExpiring 0)).saves) ∧
    (∃ e, (GetValidAccessToken (replyingEnv 500 "upstream down")
        (worldWith (credsExpiring 0))).2 = .error e ∧
      (GetValidAccessToken (replyingEnv 500 "upstream down")
        (worldWith (credsExpiring 0))).1.disk = .doc { ClaudeSub := some (credsExpiring 0) } ∧
      (GetValidAccessToken (replyingEnv 500 "upstream down")
        (worldWith (credsExpiring 0))).1.saves = (worldWith (credsExpiring 0)).saves) :=
  have h := failed_refresh_keeps_document (replyingEnv 500 "upstream down")
    (worldWith (credsExpiring 0)) (credsExpiring 0) rfl (by decide)
  ⟨h.1, h.2 (by decide)⟩

/-! ## C22: the token returned after a refresh -/

/-- C22, at the failing input: the stored credential is past its threshold and
the token endpoint grants the refresh with `expires_in = 60` (or with
`expires_in = 0`, as for a reply without that field).  `GetValidAccessToken`
returns the new access token with no error, yet the credential it read the
token from is not valid: at the next clock reading `now ≥ expires - 300000`
and `IsClaudeSubTokenValid` returns false. -/
theorem GetValidAccessToken_returns_token_inside_buffer :
    ((GetValidAccessToken (grantingEnv tickingClock (freshToken 60) upstreamOk saveWritten)
        (worldWith (credsExpiring 0))).2 = .ok "access-1" ∧
      GetClaudeSubCredentials
        (GetValidAccessToken (grantingEnv tickingClock (freshToken 60) upstreamOk saveWritten)
          (worldWith (credsExpiring 0))).1 =
        .ok (storedCredentials (freshToken 60) 1700000061000) ∧
      (IsClaudeSubTokenValid (grantingEnv tickingClock (freshToken 60) upstreamOk saveWritten)
        (GetValidAccessToken (grantingEnv tickingClock (freshToken 60) upstreamOk saveWritten)
          (worldWith (credsExpiring 0))).1).2 = .ok false ∧
      UnixMilli (tickingClock 2) ≥ 1700000061000 - 300000) ∧
    ((GetValidAccessToken (grantingEnv tickingClock (freshToken 0) upstreamOk saveWritten)
        (worldWith (credsExpiring 0))).2 = .ok "access-1" ∧
      (IsClaudeSubTokenValid (grantingEnv tickingClock (freshToken 0) upstreamOk saveWritten)
        (GetValidAccessToken (grantingEnv tickingClock (freshToken 0) upstreamOk saveWritten)
          (worldWith (credsExpiring 0))).1).2 = .ok false) := by
  refine ⟨⟨?_, ?_, ?_, ?_⟩, ?_, ?_⟩ <;> decide

end Crush
